import Mathlib

/-!
Verification of the readwise Rust client library.

The repository contains two revisions of the same Readwise API wrapper:

* the modular revision (`src/client.rs`, `src/request.rs`, `src/auth.rs`,
  `src/url.rs`, `src/error.rs`, `src/model.rs`), whose items are re-exported
  through `src/common.rs`; and
* the legacy flat revision (`src/lib.rs`), which bundles the same client,
  models and a `signed_request` helper in one file, with `anyhow`-style
  message errors and a panicking wildcard arm.

Both are shallowly embedded below.  HTTP transport is modelled as a function
from requests to responses (or a network failure), JSON documents as an
inductive `Json` value, serde decoding as partial functions `Json → Option α`
mirroring the derived `Deserialize` instances, and Rust panics (`unwrap`,
indexing, `panic!`) as an explicit `Outcome.panic` constructor.  Every
operation returns the ordered list of HTTP requests it dispatched together
with its outcome, so ordering and fan-out properties are directly statable.
-/

set_option autoImplicit false

namespace Readwise

/-- HTTP methods of the `http` crate that the wrapper can receive.  The four
methods actually dispatched are `GET`, `POST`, `PATCH`, `DELETE`; the
remaining constructors feed the wildcard `_` arm of the request signers. -/
inductive Method where
  | GET
  | POST
  | PATCH
  | DELETE
  | PUT
  | HEAD
  | OPTIONS
  | CONNECT
  | TRACE
deriving DecidableEq, Repr

/-- JSON documents, as produced by `serde_json`.  Numbers are restricted to
integers, which is all this wrapper ever serializes or inspects. -/
inductive Json where
  | null
  | bool (b : Bool)
  | num (n : Int)
  | str (s : String)
  | arr (elems : List Json)
  | obj (fields : List (String × Json))

/-- `HashMap<&str, &str>`: one map of highlight fields, modelled as an
association list. -/
def FieldMap : Type := List (String × String)

/-- `HashMap<&str, Vec<HashMap<&str, &str>>>`: the body-map type taken by both
`signed_request` functions. -/
def BodyMap : Type := List (String × List FieldMap)

/-- First-match association-list lookup, modelling `HashMap` indexing for the
single-key maps this wrapper builds. -/
def lookup {α : Type} (l : List (String × α)) (k : String) : Option α :=
  match l with
  | [] => none
  | p :: rest => if p.1 = k then some p.2 else lookup rest k

/-- Serialization of an inner `HashMap<&str, &str>` by `serde_json`. -/
def fieldMapToJson (m : FieldMap) : Json :=
  .obj (m.map (fun p => (p.1, .str p.2)))

/-- Serialization of a `HashMap<&str, Vec<HashMap<&str, &str>>>` body. -/
def bodyMapToJson (b : BodyMap) : Json :=
  .obj (b.map (fun p => (p.1, .arr (p.2.map fieldMapToJson))))

/-- An HTTP request as assembled by the wrapper: absolute URL, method,
header list and optional serialized JSON body. -/
structure HttpRequest where
  url : String
  method : Method
  headers : List (String × String)
  body : Option Json

/-- An HTTP response: numeric status code and body (the parsed form of the
response text). -/
structure HttpResp where
  status : Nat
  body : Json

/-- Result of putting one request on the wire: either a network-level failure
(DNS, connection, TLS — `reqwest::Error`) or a response. -/
inductive TResult where
  | netError
  | resp (r : HttpResp)

/-- The HTTP transport: what the server (or mock server) answers to each
request.  All operations are parametrized by it. -/
def Transport : Type := HttpRequest → TResult

/-- `reqwest::StatusCode::is_success`: `200 ≤ status < 300`. -/
def isSuccess (status : Nat) : Bool :=
  200 ≤ status && status < 300

/-- Outcome of running one wrapper operation: a Rust panic (with its message),
an error value `e : ε`, or a success value. -/
inductive Outcome (ε α : Type) where
  | panic (msg : String)
  | err (e : ε)
  | ok (a : α)
deriving DecidableEq, Repr

/-- A run of an operation: the requests it dispatched, in order, and its
outcome. -/
abbrev Run (ε α : Type) : Type := List HttpRequest × Outcome ε α

/-- `error::Error` of the modular revision (`src/error.rs`); each constructor
mirrors one variant, keeping the payloads the claims are about. -/
inductive Error where
  | client
  | deserialize
  | headerValue
  | unsupportedRequest (method : Method)
  | badRequest (status : Nat)
deriving DecidableEq, Repr

/-- `http::HeaderValue` validity for a character: horizontal tab, or a byte
that is at least 32 and not DEL. -/
def isValidHeaderChar (c : Char) : Bool :=
  c.toNat = 9 || (32 ≤ c.toNat && c.toNat ≠ 127)

/-- `header::HeaderValue::from_str`: succeeds, returning the string itself,
exactly when every character is a valid header-value character. -/
def headerValueFromStr (s : String) : Option String :=
  if s.data.all isValidHeaderChar then some s else none

/-- `url::request_url` / `lib::get_request_url`: the production base URL (the
test configuration substitutes a mock server address). -/
def request_url : String := "https://readwise.io"

/-- `model::Book` (identical in both revisions).  Integer ids are modelled as
`Int` (`i64`). -/
structure Book where
  id : Int
  title : String
  author : Option String
  category : String
  num_highlights : Int
  last_highlighted_at : Option String
  updated : String
  cover_image_url : String
  highlights_url : String
  source_url : Option String
deriving DecidableEq, Repr

/-- `model::Highlight` (identical in both revisions). -/
structure Highlight where
  id : Int
  text : String
  note : String
  location : Int
  location_type : String
  highlighted_at : Option String
  url : Option String
  color : String
  updated : String
  books_id : Option String
deriving DecidableEq, Repr

/-- `model::HighlightCreateResponse` (identical in both revisions), including
the source's `auhtor` field-name typo. -/
structure HighlightCreateResponse where
  id : Int
  title : String
  auhtor : Option String
  category : String
  num_highlights : Int
  last_highlighted_at : Option String
  updated : String
  cover_image_url : String
  highlights_url : String
  source_url : Option String
  modified_highlights : List Int
deriving DecidableEq, Repr

/-- `model::BooksResponse`: the paginated envelope for books. -/
structure BooksResponse where
  count : Int
  next : Option String
  previous : Option String
  results : List Book
deriving DecidableEq, Repr

/-- `model::HighlightsResponse`: the paginated envelope for highlights. -/
structure HighlightsResponse where
  count : Int
  next : Option String
  previous : Option String
  results : List Highlight
deriving DecidableEq, Repr

/-- serde: deserializing a `String` field value. -/
def decodeString : Json → Option String
  | .str s => some s
  | _ => none

/-- serde: deserializing an `i64` field value. -/
def decodeInt : Json → Option Int
  | .num n => some n
  | _ => none

/-- serde: a required field of an object (missing or ill-typed fails). -/
def getStr (o : List (String × Json)) (k : String) : Option String :=
  (lookup o k).bind decodeString

/-- serde: a required `i64` field of an object. -/
def getInt (o : List (String × Json)) (k : String) : Option Int :=
  (lookup o k).bind decodeInt

/-- serde: an `Option<String>` field — a missing field or JSON `null` decodes
to `none`, a string to `some`, anything else fails. -/
def getOptStr (o : List (String × Json)) (k : String) : Option (Option String) :=
  match lookup o k with
  | none => some none
  | some .null => some none
  | some (.str s) => some (some s)
  | some _ => none

/-- serde: deserializing `Vec<i64>`. -/
def decodeIntList : Json → Option (List Int)
  | .arr xs => xs.mapM decodeInt
  | _ => none

/-- serde: derived `Deserialize` for `Book`. -/
def decodeBook : Json → Option Book
  | .obj o => do
    let id ← getInt o "id"
    let title ← getStr o "title"
    let author ← getOptStr o "author"
    let category ← getStr o "category"
    let num_highlights ← getInt o "num_highlights"
    let last_highlighted_at ← getOptStr o "last_highlighted_at"
    let updated ← getStr o "updated"
    let cover_image_url ← getStr o "cover_image_url"
    let highlights_url ← getStr o "highlights_url"
    let source_url ← getOptStr o "source_url"
    pure ⟨id, title, author, category, num_highlights, last_highlighted_at,
      updated, cover_image_url, highlights_url, source_url⟩
  | _ => none

/-- serde: derived `Deserialize` for `Highlight`. -/
def decodeHighlight : Json → Option Highlight
  | .obj o => do
    let id ← getInt o "id"
    let text ← getStr o "text"
    let note ← getStr o "note"
    let location ← getInt o "location"
    let location_type ← getStr o "location_type"
    let highlighted_at ← getOptStr o "highlighted_at"
    let url ← getOptStr o "url"
    let color ← getStr o "color"
    let updated ← getStr o "updated"
    let books_id ← getOptStr o "books_id"
    pure ⟨id, text, note, location, location_type, highlighted_at, url, color,
      updated, books_id⟩
  | _ => none

/-- serde: derived `Deserialize` for `HighlightCreateResponse`. -/
def decodeCreateItem : Json → Option HighlightCreateResponse
  | .obj o => do
    let id ← getInt o "id"
    let title ← getStr o "title"
    let auhtor ← getOptStr o "auhtor"
    let category ← getStr o "category"
    let num_highlights ← getInt o "num_highlights"
    let last_highlighted_at ← getOptStr o "last_highlighted_at"
    let updated ← getStr o "updated"
    let cover_image_url ← getStr o "cover_image_url"
    let highlights_url ← getStr o "highlights_url"
    let source_url ← getOptStr o "source_url"
    let modified ← (lookup o "modified_highlights").bind decodeIntList
    pure ⟨id, title, auhtor, category, num_highlights, last_highlighted_at,
      updated, cover_image_url, highlights_url, source_url, modified⟩
  | _ => none

/-- serde: deserializing `Vec<HighlightCreateResponse>`. -/
def decodeCreateList : Json → Option (List HighlightCreateResponse)
  | .arr xs => xs.mapM decodeCreateItem
  | _ => none

/-- serde: deserializing `Vec<Book>` (the `results` field). -/
def decodeBookList : Json → Option (List Book)
  | .arr xs => xs.mapM decodeBook
  | _ => none

/-- serde: deserializing `Vec<Highlight>` (the `results` field). -/
def decodeHighlightList : Json → Option (List Highlight)
  | .arr xs => xs.mapM decodeHighlight
  | _ => none

/-- serde: derived `Deserialize` for `BooksResponse`. -/
def decodeBooksResponse : Json → Option BooksResponse
  | .obj o => do
    let count ← getInt o "count"
    let next ← getOptStr o "next"
    let previous ← getOptStr o "previous"
    let results ← (lookup o "results").bind decodeBookList
    pure ⟨count, next, previous, results⟩
  | _ => none

/-- serde: derived `Deserialize` for `HighlightsResponse`. -/
def decodeHighlightsResponse : Json → Option HighlightsResponse
  | .obj o => do
    let count ← getInt o "count"
    let next ← getOptStr o "next"
    let previous ← getOptStr o "previous"
    let results ← (lookup o "results").bind decodeHighlightList
    pure ⟨count, next, previous, results⟩
  | _ => none

/-- The request built for endpoint `ep` under header value `hv` with method
`m` and serialized body `b`: URL `request_url ++ "/api/v2" ++ ep`, one
`Authorization` header. -/
def mkReq (ep hv : String) (m : Method) (b : Option Json) : HttpRequest :=
  { url := request_url ++ "/api/v2" ++ ep
    method := m
    headers := [("Authorization", hv)]
    body := b }

/-- `request?.send()?` followed by the status match of
`request::signed_request` / `Client::request`: dispatch the request, map a
network failure to the transport error, a non-2xx status to
`Error::BadRequest` carrying the status, and pass a 2xx response through. -/
def sendAndCheck (t : Transport) (req : HttpRequest) : Run Error HttpResp :=
  match t req with
  | .netError => ([req], .err .client)
  | .resp r =>
    if isSuccess r.status then ([req], .ok r)
    else ([req], .err (.badRequest r.status))

/-- `request::signed_request` of the modular revision: build the URL and
`Authorization: Token <token>` header, attach the body according to the
method (POST: the body map as-is; PATCH: element 0 of the body map's `body`
list; GET/DELETE: none), dispatch, and check the status.  `unwrap()` on a
missing body and the `["body"]`/`[0]` indexing panic; any other method is
the `Error::UnsupportedRequest` arm. -/
def signed_request (t : Transport) (endpoint token : String) (method : Method)
    (body : Option BodyMap) : Run Error HttpResp :=
  match headerValueFromStr ("Token " ++ token) with
  | none => ([], .err .headerValue)
  | some hv =>
    match method with
    | .GET => sendAndCheck t (mkReq endpoint hv .GET none)
    | .POST =>
      match body with
      | none => ([], .panic "called Option::unwrap on a None value")
      | some b => sendAndCheck t (mkReq endpoint hv .POST (some (bodyMapToJson b)))
    | .PATCH =>
      match body with
      | none => ([], .panic "called Option::unwrap on a None value")
      | some b =>
        match lookup b "body" with
        | none => ([], .panic "no entry found for key")
        | some [] => ([], .panic "index out of bounds")
        | some (f :: _) =>
          sendAndCheck t (mkReq endpoint hv .PATCH (some (fieldMapToJson f)))
    | .DELETE => sendAndCheck t (mkReq endpoint hv .DELETE none)
    | m => ([], .err (.unsupportedRequest m))

/-- `client::Client` of the modular revision: holds only the access token. -/
structure Client where
  access_token : String
deriving DecidableEq, Repr

/-- `Client::request` (`src/client.rs`): its body repeats
`request::signed_request` verbatim with `token := self.access_token`, so it
is embedded as that instance. -/
def Client.request (c : Client) (t : Transport) (endpoint : String)
    (method : Method) (body : Option BodyMap) : Run Error HttpResp :=
  signed_request t endpoint c.access_token method body

/-- `serde_json::from_str::<T>(&resp.text()?)?` applied to the response of a
run: decode the body of a successful response, mapping decode failure to
`Error::Deserialize`; errors and panics pass through. -/
def mapDecode {α : Type} (run : Run Error HttpResp) (dec : Json → Option α) :
    Run Error α :=
  match run with
  | (log, .ok r) =>
    match dec r.body with
    | some a => (log, .ok a)
    | none => (log, .err .deserialize)
  | (log, .err e) => (log, .err e)
  | (log, .panic msg) => (log, .panic msg)

/-- `Client::new` (`src/client.rs`): the same signed GET to `/auth` as
`signed_request`, then a client holding the supplied token on success. -/
def Client.new (t : Transport) (access_token : String) : Run Error Client :=
  match signed_request t "/auth" access_token .GET none with
  | (log, .ok _) => (log, .ok ⟨access_token⟩)
  | (log, .err e) => (log, .err e)
  | (log, .panic msg) => (log, .panic msg)

/-- `auth::auth` (`src/auth.rs`): `signed_request("/auth", token, GET, None)?`
then `Ok(Client { access_token })`. -/
def auth (t : Transport) (access_token : String) : Run Error Client :=
  match signed_request t "/auth" access_token .GET none with
  | (log, .ok _) => (log, .ok ⟨access_token⟩)
  | (log, .err e) => (log, .err e)
  | (log, .panic msg) => (log, .panic msg)

/-- `Client::books`: GET `/books?page={page}` and return the decoded
envelope's `results`. -/
def Client.books (c : Client) (t : Transport) (page : Nat) : Run Error (List Book) :=
  mapDecode (c.request t ("/books?page=" ++ toString page) .GET none)
    (fun j => (decodeBooksResponse j).map BooksResponse.results)

/-- `Client::highlights`: GET `/highlights?page={page}` and return the decoded
envelope's `results`. -/
def Client.highlights (c : Client) (t : Transport) (page : Nat) :
    Run Error (List Highlight) :=
  mapDecode (c.request t ("/highlights?page=" ++ toString page) .GET none)
    (fun j => (decodeHighlightsResponse j).map HighlightsResponse.results)

/-- `Client::book`: GET `/books/{id}` and decode a `Book`. -/
def Client.book (c : Client) (t : Transport) (id : Int) : Run Error Book :=
  mapDecode (c.request t ("/books/" ++ toString id) .GET none) decodeBook

/-- `Client::highlight`: GET `/highlights/{id}` and decode a `Highlight`. -/
def Client.highlight (c : Client) (t : Transport) (id : Int) : Run Error Highlight :=
  mapDecode (c.request t ("/highlights/" ++ toString id) .GET none) decodeHighlight

/-- The follow-up fan-out of `Client::create_highlights`:
`identifiers.iter().map(|i| self.highlight(*i)).collect::<Result<Vec<_>, _>>()`.
Fetch each id in order, stopping at (and returning) the first failure, with
no partial result. -/
def fetchHighlights (c : Client) (t : Transport) : List Int → Run Error (List Highlight)
  | [] => ([], .ok [])
  | id :: rest =>
    match c.highlight t id with
    | (log, .ok h) =>
      match fetchHighlights c t rest with
      | (log2, .ok hs) => (log ++ log2, .ok (h :: hs))
      | (log2, .err e) => (log ++ log2, .err e)
      | (log2, .panic msg) => (log ++ log2, .panic msg)
    | (log, .err e) => (log, .err e)
    | (log, .panic msg) => (log, .panic msg)

/-- `Client::create_highlights`: POST `/highlights` with body
`{"highlights": highlights}`, decode a `Vec<HighlightCreateResponse>`,
flat-map the `modified_highlights` ids in order, then fetch each id. -/
def Client.create_highlights (c : Client) (t : Transport)
    (highlights : List FieldMap) : Run Error (List Highlight) :=
  let body : BodyMap := [("highlights", highlights)]
  match mapDecode (c.request t "/highlights" .POST (some body)) decodeCreateList with
  | (log, .ok items) =>
    let identifiers := (items.map HighlightCreateResponse.modified_highlights).flatten
    match fetchHighlights c t identifiers with
    | (log2, out) => (log ++ log2, out)
  | (log, .err e) => (log, .err e)
  | (log, .panic msg) => (log, .panic msg)

/-- `Client::update_highlight`: wrap `body` as `{"body": [body]}`, PATCH
`/highlights/{id}`, decode a `Highlight`. -/
def Client.update_highlight (c : Client) (t : Transport) (id : Int)
    (body : FieldMap) : Run Error Highlight :=
  let container : BodyMap := [("body", [body])]
  mapDecode (c.request t ("/highlights/" ++ toString id) .PATCH (some container))
    decodeHighlight

/-- `Client::delete_highlight`: DELETE `/highlights/{id}`, discard the
response. -/
def Client.delete_highlight (c : Client) (t : Transport) (id : Int) :
    Run Error Unit :=
  match c.request t ("/highlights/" ++ toString id) .DELETE none with
  | (log, .ok _) => (log, .ok ())
  | (log, .err e) => (log, .err e)
  | (log, .panic msg) => (log, .panic msg)

namespace Lib

/-- Errors of the legacy flat revision (`src/lib.rs`).  That revision uses
`anyhow` message errors; each `anyhow!` call site becomes one constructor
carrying exactly the values interpolated into its format string, plus the
wrapped `reqwest` / `serde_json` sources. -/
inductive Error where
  | transport
  | deserialize
  | fetchBooksFailed (status : Nat)
  | fetchHighlightsFailed (status : Nat)
  | fetchBookFailed (id : Int)
  | fetchHighlightFailed (id : Int)
  | createFailed (status : Nat)
  | updateFailed (id : Int)
  | deleteFailed (id : Int)
  | authFailed (status : Nat)
deriving DecidableEq, Repr

/-- The send step of `lib::signed_request`: `Ok(resp.send()?)` — a network
failure becomes a transport error; the response is returned with NO status
check (each caller checks `is_success` itself). -/
def sendRaw (t : Transport) (req : HttpRequest) : Run Lib.Error HttpResp :=
  match t req with
  | .netError => ([req], .err .transport)
  | .resp r => ([req], .ok r)

/-- `lib::signed_request` (`src/lib.rs`): same URL, header and per-method body
attachment as the modular signer, but `HeaderValue::from_str(..).unwrap()`
panics on an invalid token, no status check is performed, and the wildcard
method arm is `panic!("Unsupported request method")`. -/
def signed_request (t : Transport) (endpoint token : String) (method : Method)
    (body : Option BodyMap) : Run Lib.Error HttpResp :=
  match headerValueFromStr ("Token " ++ token) with
  | none => ([], .panic "called Result::unwrap on an Err value")
  | some hv =>
    match method with
    | .GET => sendRaw t (mkReq endpoint hv .GET none)
    | .POST =>
      match body with
      | none => ([], .panic "called Option::unwrap on a None value")
      | some b => sendRaw t (mkReq endpoint hv .POST (some (bodyMapToJson b)))
    | .PATCH =>
      match body with
      | none => ([], .panic "called Option::unwrap on a None value")
      | some b =>
        match lookup b "body" with
        | none => ([], .panic "no entry found for key")
        | some [] => ([], .panic "index out of bounds")
        | some (f :: _) =>
          sendRaw t (mkReq endpoint hv .PATCH (some (fieldMapToJson f)))
    | .DELETE => sendRaw t (mkReq endpoint hv .DELETE none)
    | _ => ([], .panic "Unsupported request method")

/-- `lib::Client`: the legacy client, also just the token. -/
structure Client where
  access_token : String
deriving DecidableEq, Repr

/-- `lib::Client::books`: GET, then if 2xx decode the envelope and push every
`results` element in order; otherwise fail with a message carrying the
status. -/
def Client.books (c : Client) (t : Transport) (page : Int) :
    Run Lib.Error (List Book) :=
  match Lib.signed_request t ("/books?page=" ++ toString page) c.access_token .GET none with
  | (log, .ok r) =>
    if isSuccess r.status then
      match decodeBooksResponse r.body with
      | some env => (log, .ok env.results)
      | none => (log, .err .deserialize)
    else (log, .err (.fetchBooksFailed r.status))
  | (log, .err e) => (log, .err e)
  | (log, .panic msg) => (log, .panic msg)

/-- `lib::Client::highlights`: as `books`, for highlights. -/
def Client.highlights (c : Client) (t : Transport) (page : Int) :
    Run Lib.Error (List Highlight) :=
  match Lib.signed_request t ("/highlights?page=" ++ toString page) c.access_token .GET none with
  | (log, .ok r) =>
    if isSuccess r.status then
      match decodeHighlightsResponse r.body with
      | some env => (log, .ok env.results)
      | none => (log, .err .deserialize)
    else (log, .err (.fetchHighlightsFailed r.status))
  | (log, .err e) => (log, .err e)
  | (log, .panic msg) => (log, .panic msg)

/-- `lib::Client::book`: on non-2xx the error message carries only the id
(`"Failed to fetch book with id: {}"`), not the status. -/
def Client.book (c : Client) (t : Transport) (id : Int) : Run Lib.Error Book :=
  match Lib.signed_request t ("/books/" ++ toString id) c.access_token .GET none with
  | (log, .ok r) =>
    if isSuccess r.status then
      match decodeBook r.body with
      | some b => (log, .ok b)
      | none => (log, .err .deserialize)
    else (log, .err (.fetchBookFailed id))
  | (log, .err e) => (log, .err e)
  | (log, .panic msg) => (log, .panic msg)

/-- `lib::Client::highlight`: on non-2xx the error message carries only the
id, not the status. -/
def Client.highlight (c : Client) (t : Transport) (id : Int) :
    Run Lib.Error Highlight :=
  match Lib.signed_request t ("/highlights/" ++ toString id) c.access_token .GET none with
  | (log, .ok r) =>
    if isSuccess r.status then
      match decodeHighlight r.body with
      | some h => (log, .ok h)
      | none => (log, .err .deserialize)
    else (log, .err (.fetchHighlightFailed id))
  | (log, .err e) => (log, .err e)
  | (log, .panic msg) => (log, .panic msg)

/-- The follow-up loop of `lib::Client::create`: for each response item, for
each id in its `modified_highlights`, `self.highlight(id)?` and push — i.e.
fetch the flattened ids in order, stopping at the first failure. -/
def fetchHighlights (c : Client) (t : Transport) : List Int → Run Lib.Error (List Highlight)
  | [] => ([], .ok [])
  | id :: rest =>
    match c.highlight t id with
    | (log, .ok h) =>
      match fetchHighlights c t rest with
      | (log2, .ok hs) => (log ++ log2, .ok (h :: hs))
      | (log2, .err e) => (log ++ log2, .err e)
      | (log2, .panic msg) => (log ++ log2, .panic msg)
    | (log, .err e) => (log, .err e)
    | (log, .panic msg) => (log, .panic msg)

/-- `lib::Client::create`: POST `{"highlights": highlights}`, and on 2xx
decode the create-response list and fetch every `modified_highlights` id in
encounter order; on non-2xx fail with a message carrying the status. -/
def Client.create (c : Client) (t : Transport) (highlights : List FieldMap) :
    Run Lib.Error (List Highlight) :=
  let body : BodyMap := [("highlights", highlights)]
  match Lib.signed_request t "/highlights" c.access_token .POST (some body) with
  | (log, .ok r) =>
    if isSuccess r.status then
      match decodeCreateList r.body with
      | some items =>
        let ids := (items.map HighlightCreateResponse.modified_highlights).flatten
        match fetchHighlights c t ids with
        | (log2, out) => (log ++ log2, out)
      | none => (log, .err .deserialize)
    else (log, .err (.createFailed r.status))
  | (log, .err e) => (log, .err e)
  | (log, .panic msg) => (log, .panic msg)

/-- `lib::Client::update`: wrap the fields as `{"body": [body]}`, PATCH, and
on non-2xx fail with a message carrying only the id. -/
def Client.update (c : Client) (t : Transport) (id : Int) (body : FieldMap) :
    Run Lib.Error Highlight :=
  let container : BodyMap := [("body", [body])]
  match Lib.signed_request t ("/highlights/" ++ toString id) c.access_token .PATCH (some container) with
  | (log, .ok r) =>
    if isSuccess r.status then
      match decodeHighlight r.body with
      | some h => (log, .ok h)
      | none => (log, .err .deserialize)
    else (log, .err (.updateFailed id))
  | (log, .err e) => (log, .err e)
  | (log, .panic msg) => (log, .panic msg)

/-- `lib::Client::delete`: DELETE, and on non-2xx fail with a message carrying
only the id. -/
def Client.delete (c : Client) (t : Transport) (id : Int) : Run Lib.Error Unit :=
  match Lib.signed_request t ("/highlights/" ++ toString id) c.access_token .DELETE none with
  | (log, .ok r) =>
    if isSuccess r.status then (log, .ok ())
    else (log, .err (.deleteFailed id))
  | (log, .err e) => (log, .err e)
  | (log, .panic msg) => (log, .panic msg)

/-- `lib::auth`: signed GET to `/auth`; 2xx yields a client holding the token,
non-2xx fails with a message carrying the status. -/
def auth (t : Transport) (access_token : String) : Run Lib.Error Lib.Client :=
  match Lib.signed_request t "/auth" access_token .GET none with
  | (log, .ok r) =>
    if isSuccess r.status then (log, .ok ⟨access_token⟩)
    else (log, .err (.authFailed r.status))
  | (log, .err e) => (log, .err e)
  | (log, .panic msg) => (log, .panic msg)

end Lib

/-- Does an outcome represent a Rust panic? -/
def Outcome.isPanic {ε α : Type} : Outcome ε α → Bool
  | .panic _ => true
  | _ => false

/-- Does an outcome of the modular revision carry the unsupported-method
error? -/
def Outcome.isUnsupportedErr {α : Type} : Outcome Error α → Bool
  | .err (.unsupportedRequest _) => true
  | _ => false

/-- Does an outcome of the legacy revision represent the
`panic!("Unsupported request method")` arm? -/
def Outcome.isUnsupPanic {ε α : Type} : Outcome ε α → Bool
  | .panic msg => msg = "Unsupported request method"
  | _ => false

/-- A mock transport answering every request with the given status and a null
body. -/
def constT (status : Nat) : Transport := fun _ => .resp ⟨status, .null⟩

/-- A mock transport that fails every request at the network level. -/
def downT : Transport := fun _ => .netError

/-- A mock routing table: responses keyed by URL and method. -/
def RespTable : Type := List ((String × Method) × HttpResp)

/-- Look a request up in a routing table. -/
def findResp (tbl : RespTable) (u : String) (m : Method) : Option HttpResp :=
  match tbl with
  | [] => none
  | e :: rest => if e.1.1 = u ∧ e.1.2 = m then some e.2 else findResp rest u m

/-- A mock transport serving a routing table; unknown requests fail at the
network level. -/
def tableT (tbl : RespTable) : Transport := fun req =>
  match findResp tbl req.url req.method with
  | some r => .resp r
  | none => .netError

/-- JSON fixture: a highlight record with the given id and text and default
remaining fields. -/
def hlJson (id : Int) (text : String) : Json :=
  .obj [("id", .num id), ("text", .str text), ("note", .str ""),
    ("location", .num 0), ("location_type", .str ""), ("highlighted_at", .null),
    ("url", .null), ("color", .str ""), ("updated", .str ""), ("books_id", .null)]

/-- The highlight value `hlJson id text` decodes to. -/
def hlVal (id : Int) (text : String) : Highlight :=
  ⟨id, text, "", 0, "", none, none, "", "", none⟩

/-- JSON fixture: a book record with the given id and title and default
remaining fields. -/
def bookJson (id : Int) (title : String) : Json :=
  .obj [("id", .num id), ("title", .str title), ("author", .null),
    ("category", .str ""), ("num_highlights", .num 0),
    ("last_highlighted_at", .null), ("updated", .str ""),
    ("cover_image_url", .str ""), ("highlights_url", .str ""),
    ("source_url", .null)]

/-- The book value `bookJson id title` decodes to. -/
def bookVal (id : Int) (title : String) : Book :=
  ⟨id, title, none, "", 0, none, "", "", "", none⟩

/-- JSON fixture: a create-response record carrying the given
`modified_highlights` ids. -/
def createItemJson (ids : List Int) : Json :=
  .obj [("id", .num 1), ("title", .str "Quotes"), ("auhtor", .null),
    ("category", .str "books"), ("num_highlights", .num 5),
    ("last_highlighted_at", .null), ("updated", .str ""),
    ("cover_image_url", .str ""), ("highlights_url", .str ""),
    ("source_url", .null), ("modified_highlights", .arr (ids.map .num))]

/-- The create-response value `createItemJson ids` decodes to. -/
def createItemVal (ids : List Int) : HighlightCreateResponse :=
  ⟨1, "Quotes", none, "books", 5, none, "", "", "", none, ids⟩

/-- JSON fixture: a paginated envelope with a non-null `next` cursor around
the given results. -/
def envJson (results : List Json) : Json :=
  .obj [("count", .num 1), ("next", .str "https://readwise.io/api/v2/next"),
    ("previous", .null), ("results", .arr results)]

/-- The request `Client::books` dispatches. -/
def booksReq (c : Client) (page : Nat) : HttpRequest :=
  mkReq ("/books?page=" ++ toString page) ("Token " ++ c.access_token) .GET none

/-- The request `Client::highlights` dispatches. -/
def highlightsReq (c : Client) (page : Nat) : HttpRequest :=
  mkReq ("/highlights?page=" ++ toString page) ("Token " ++ c.access_token) .GET none

/-- The request `Client::book` dispatches. -/
def bookReq (c : Client) (id : Int) : HttpRequest :=
  mkReq ("/books/" ++ toString id) ("Token " ++ c.access_token) .GET none

/-- The request `Client::highlight` dispatches (also each follow-up GET of
`create_highlights`). -/
def getHighlightReq (c : Client) (id : Int) : HttpRequest :=
  mkReq ("/highlights/" ++ toString id) ("Token " ++ c.access_token) .GET none

/-- The initial POST `Client::create_highlights` dispatches, its body the
serialized `{"highlights": hs}` map. -/
def postCreateReq (c : Client) (hs : List FieldMap) : HttpRequest :=
  mkReq "/highlights" ("Token " ++ c.access_token) .POST
    (some (bodyMapToJson [("highlights", hs)]))

/-- The PATCH `Client::update_highlight` dispatches: its wire body is the
serialized `fields` map itself (element 0 of the wrapped `body` list). -/
def patchReq (c : Client) (id : Int) (fields : FieldMap) : HttpRequest :=
  mkReq ("/highlights/" ++ toString id) ("Token " ++ c.access_token) .PATCH
    (some (fieldMapToJson fields))

/-- The request `Client::delete_highlight` dispatches. -/
def deleteReq (c : Client) (id : Int) : HttpRequest :=
  mkReq ("/highlights/" ++ toString id) ("Token " ++ c.access_token) .DELETE none

/-- The authentication request of `Client::new`, `auth::auth` and `lib::auth`. -/
def authReq (tok : String) : HttpRequest :=
  mkReq "/auth" ("Token " ++ tok) .GET none

/-- The request `lib::Client::books` dispatches. -/
def Lib.booksReq (lc : Lib.Client) (page : Int) : HttpRequest :=
  mkReq ("/books?page=" ++ toString page) ("Token " ++ lc.access_token) .GET none

/-- The request `lib::Client::highlights` dispatches. -/
def Lib.highlightsReq (lc : Lib.Client) (page : Int) : HttpRequest :=
  mkReq ("/highlights?page=" ++ toString page) ("Token " ++ lc.access_token) .GET none

/-- The request `lib::Client::highlight` dispatches (also each follow-up GET
of `lib::Client::create`). -/
def Lib.getHighlightReq (lc : Lib.Client) (id : Int) : HttpRequest :=
  mkReq ("/highlights/" ++ toString id) ("Token " ++ lc.access_token) .GET none

/-- The initial POST `lib::Client::create` dispatches. -/
def Lib.postCreateReq (lc : Lib.Client) (hs : List FieldMap) : HttpRequest :=
  mkReq "/highlights" ("Token " ++ lc.access_token) .POST
    (some (bodyMapToJson [("highlights", hs)]))

/-- The request `lib::Client::book` dispatches. -/
def Lib.bookReq (lc : Lib.Client) (id : Int) : HttpRequest :=
  mkReq ("/books/" ++ toString id) ("Token " ++ lc.access_token) .GET none

/-- The PATCH `lib::Client::update` dispatches. -/
def Lib.patchReq (lc : Lib.Client) (id : Int) (fields : FieldMap) : HttpRequest :=
  mkReq ("/highlights/" ++ toString id) ("Token " ++ lc.access_token) .PATCH
    (some (fieldMapToJson fields))

/-- The request `lib::Client::delete` dispatches. -/
def Lib.deleteReq (lc : Lib.Client) (id : Int) : HttpRequest :=
  mkReq ("/highlights/" ++ toString id) ("Token " ++ lc.access_token) .DELETE none

/-- The ids a create response yields: all `modified_highlights`, flattened in
encounter order. -/
def flatIds (items : List HighlightCreateResponse) : List Int :=
  (items.map HighlightCreateResponse.modified_highlights).flatten

/-- Token validity: the `Authorization` header value built from the token is
accepted by `HeaderValue::from_str`. -/
def TokenOk (tok : String) : Prop :=
  headerValueFromStr ("Token " ++ tok) = some ("Token " ++ tok)

/-- Mock server for a create-highlights round: the POST reports modified
highlights 1 and 2; the two follow-up GETs serve them. -/
def w1T : Transport := tableT
  [((request_url ++ "/api/v2/highlights", .POST), ⟨200, .arr [createItemJson [1, 2]]⟩),
   ((request_url ++ "/api/v2/highlights/1", .GET), ⟨200, hlJson 1 "a"⟩),
   ((request_url ++ "/api/v2/highlights/2", .GET), ⟨200, hlJson 2 "b"⟩)]

/-- The highlights `w1T` serves, as a function of id. -/
def w1H : Int → Highlight := fun id => if id = 1 then hlVal 1 "a" else hlVal 2 "b"

/-- Mock server for a create-highlights round whose create response carries
`modified_highlights: []`. -/
def w2T : Transport := tableT
  [((request_url ++ "/api/v2/highlights", .POST), ⟨200, .arr [createItemJson []]⟩)]

/-- Mock server answering a PATCH of highlight 7 with an updated record. -/
def updT : Transport := tableT
  [((request_url ++ "/api/v2/highlights/7", .PATCH), ⟨200, hlJson 7 "updated"⟩)]

/-- Mock server serving two-element paginated envelopes (with a non-null
`next` cursor) for page 1 of books and highlights. -/
def envT : Transport := tableT
  [((request_url ++ "/api/v2/books?page=1", .GET),
      ⟨200, envJson [bookJson 1 "b1", bookJson 2 "b2"]⟩),
   ((request_url ++ "/api/v2/highlights?page=1", .GET),
      ⟨200, envJson [hlJson 1 "h1", hlJson 2 "h2"]⟩)]

attribute [reducible] booksReq highlightsReq bookReq getHighlightReq
  postCreateReq patchReq deleteReq authReq Lib.booksReq Lib.highlightsReq
  Lib.getHighlightReq Lib.postCreateReq Lib.bookReq Lib.patchReq Lib.deleteReq
  flatIds

theorem headerValueFromStr_eq {s hv : String}
    (h : headerValueFromStr s = some hv) : hv = s := by
  unfold headerValueFromStr at h
  split at h
  · exact (Option.some.injEq _ _ ▸ h).symm
  · exact absurd h (by simp)

theorem sendAndCheck_fst (t : Transport) (req : HttpRequest) :
    (sendAndCheck t req).1 = [req] := by
  unfold sendAndCheck
  cases t req with
  | netError => rfl
  | resp r => by_cases h : isSuccess r.status <;> simp [h]

theorem sendAndCheck_ok {t : Transport} {req : HttpRequest} {r : HttpResp}
    (h1 : t req = .resp r) (h2 : isSuccess r.status = true) :
    sendAndCheck t req = ([req], .ok r) := by
  unfold sendAndCheck
  rw [h1]
  simp [h2]

theorem sendAndCheck_bad {t : Transport} {req : HttpRequest} {r : HttpResp}
    (h1 : t req = .resp r) (h2 : isSuccess r.status = false) :
    sendAndCheck t req = ([req], .err (.badRequest r.status)) := by
  unfold sendAndCheck
  rw [h1]
  simp [h2]

theorem sendRaw_fst (t : Transport) (req : HttpRequest) :
    (Lib.sendRaw t req).1 = [req] := by
  unfold Lib.sendRaw
  cases t req <;> rfl

theorem sendRaw_resp {t : Transport} {req : HttpRequest} {r : HttpResp}
    (h1 : t req = .resp r) : Lib.sendRaw t req = ([req], .ok r) := by
  unfold Lib.sendRaw
  rw [h1]

theorem signed_request_GET {tok : String} (t : Transport) (ep : String)
    (b : Option BodyMap) (hv : TokenOk tok) :
    signed_request t ep tok .GET b =
      sendAndCheck t (mkReq ep ("Token " ++ tok) .GET none) := by
  unfold signed_request
  rw [hv]

theorem signed_request_DELETE {tok : String} (t : Transport) (ep : String)
    (b : Option BodyMap) (hv : TokenOk tok) :
    signed_request t ep tok .DELETE b =
      sendAndCheck t (mkReq ep ("Token " ++ tok) .DELETE none) := by
  unfold signed_request
  rw [hv]

theorem signed_request_POST {tok : String} (t : Transport) (ep : String)
    (b : BodyMap) (hv : TokenOk tok) :
    signed_request t ep tok .POST (some b) =
      sendAndCheck t (mkReq ep ("Token " ++ tok) .POST (some (bodyMapToJson b))) := by
  unfold signed_request
  rw [hv]

theorem signed_request_PATCH {tok : String} (t : Transport) (ep : String)
    {b : BodyMap} {f : FieldMap} {fs : List FieldMap} (hv : TokenOk tok)
    (hb : lookup b "body" = some (f :: fs)) :
    signed_request t ep tok .PATCH (some b) =
      sendAndCheck t (mkReq ep ("Token " ++ tok) .PATCH (some (fieldMapToJson f))) := by
  unfold signed_request
  rw [hv]
  simp only [hb]

theorem lib_signed_request_GET {tok : String} (t : Transport) (ep : String)
    (b : Option BodyMap) (hv : TokenOk tok) :
    Lib.signed_request t ep tok .GET b =
      Lib.sendRaw t (mkReq ep ("Token " ++ tok) .GET none) := by
  unfold Lib.signed_request
  rw [hv]

theorem lib_signed_request_DELETE {tok : String} (t : Transport) (ep : String)
    (b : Option BodyMap) (hv : TokenOk tok) :
    Lib.signed_request t ep tok .DELETE b =
      Lib.sendRaw t (mkReq ep ("Token " ++ tok) .DELETE none) := by
  unfold Lib.signed_request
  rw [hv]

theorem lib_signed_request_POST {tok : String} (t : Transport) (ep : String)
    (b : BodyMap) (hv : TokenOk tok) :
    Lib.signed_request t ep tok .POST (some b) =
      Lib.sendRaw t (mkReq ep ("Token " ++ tok) .POST (some (bodyMapToJson b))) := by
  unfold Lib.signed_request
  rw [hv]

theorem lib_signed_request_PATCH {tok : String} (t : Transport) (ep : String)
    {b : BodyMap} {f : FieldMap} {fs : List FieldMap} (hv : TokenOk tok)
    (hb : lookup b "body" = some (f :: fs)) :
    Lib.signed_request t ep tok .PATCH (some b) =
      Lib.sendRaw t (mkReq ep ("Token " ++ tok) .PATCH (some (fieldMapToJson f))) := by
  unfold Lib.signed_request
  rw [hv]
  simp only [hb]

theorem mapDecode_fst {α : Type} (run : Run Error HttpResp) (dec : Json → Option α) :
    (mapDecode run dec).1 = run.1 := by
  rcases run with ⟨log, out⟩
  cases out with
  | panic msg => rfl
  | err e => rfl
  | ok r => rcases h : dec r.body with _ | a <;> simp [mapDecode, h]

theorem mapDecode_ok {α : Type} {run : Run Error HttpResp} {dec : Json → Option α}
    {log : List HttpRequest} {r : HttpResp} {a : α}
    (h1 : run = (log, .ok r)) (h2 : dec r.body = some a) :
    mapDecode run dec = (log, .ok a) := by
  subst h1
  simp [mapDecode, h2]

theorem mapDecode_err {α : Type} {run : Run Error HttpResp} {dec : Json → Option α}
    {log : List HttpRequest} {e : Error}
    (h1 : run = (log, .err e)) :
    mapDecode run dec = (log, .err e) := by
  subst h1
  rfl

theorem books_ok {c : Client} {t : Transport} {page : Nat} {r : HttpResp}
    {env : BooksResponse} (hv : TokenOk c.access_token)
    (ht : t (booksReq c page) = .resp r) (hst : isSuccess r.status = true)
    (hdec : decodeBooksResponse r.body = some env) :
    c.books t page = ([booksReq c page], .ok env.results) := by
  unfold Client.books Client.request
  rw [signed_request_GET _ _ _ hv, sendAndCheck_ok ht hst]
  exact mapDecode_ok rfl (by simp [hdec])

theorem books_bad {c : Client} {t : Transport} {page : Nat} {r : HttpResp}
    (hv : TokenOk c.access_token)
    (ht : t (booksReq c page) = .resp r) (hst : isSuccess r.status = false) :
    c.books t page = ([booksReq c page], .err (.badRequest r.status)) := by
  unfold Client.books Client.request
  rw [signed_request_GET _ _ _ hv, sendAndCheck_bad ht hst]
  exact mapDecode_err rfl

theorem highlights_ok {c : Client} {t : Transport} {page : Nat} {r : HttpResp}
    {env : HighlightsResponse} (hv : TokenOk c.access_token)
    (ht : t (highlightsReq c page) = .resp r) (hst : isSuccess r.status = true)
    (hdec : decodeHighlightsResponse r.body = some env) :
    c.highlights t page = ([highlightsReq c page], .ok env.results) := by
  unfold Client.highlights Client.request
  rw [signed_request_GET _ _ _ hv, sendAndCheck_ok ht hst]
  exact mapDecode_ok rfl (by simp [hdec])

theorem highlights_bad {c : Client} {t : Transport} {page : Nat} {r : HttpResp}
    (hv : TokenOk c.access_token)
    (ht : t (highlightsReq c page) = .resp r) (hst : isSuccess r.status = false) :
    c.highlights t page = ([highlightsReq c page], .err (.badRequest r.status)) := by
  unfold Client.highlights Client.request
  rw [signed_request_GET _ _ _ hv, sendAndCheck_bad ht hst]
  exact mapDecode_err rfl

theorem book_ok {c : Client} {t : Transport} {id : Int} {r : HttpResp}
    {b : Book} (hv : TokenOk c.access_token)
    (ht : t (bookReq c id) = .resp r) (hst : isSuccess r.status = true)
    (hdec : decodeBook r.body = some b) :
    c.book t id = ([bookReq c id], .ok b) := by
  unfold Client.book Client.request
  rw [signed_request_GET _ _ _ hv, sendAndCheck_ok ht hst]
  exact mapDecode_ok rfl hdec

theorem book_bad {c : Client} {t : Transport} {id : Int} {r : HttpResp}
    (hv : TokenOk c.access_token)
    (ht : t (bookReq c id) = .resp r) (hst : isSuccess r.status = false) :
    c.book t id = ([bookReq c id], .err (.badRequest r.status)) := by
  unfold Client.book Client.request
  rw [signed_request_GET _ _ _ hv, sendAndCheck_bad ht hst]
  exact mapDecode_err rfl

theorem highlight_ok {c : Client} {t : Transport} {id : Int} {r : HttpResp}
    {h : Highlight} (hv : TokenOk c.access_token)
    (ht : t (getHighlightReq c id) = .resp r) (hst : isSuccess r.status = true)
    (hdec : decodeHighlight r.body = some h) :
    c.highlight t id = ([getHighlightReq c id], .ok h) := by
  unfold Client.highlight Client.request
  rw [signed_request_GET _ _ _ hv, sendAndCheck_ok ht hst]
  exact mapDecode_ok rfl hdec

theorem highlight_bad {c : Client} {t : Transport} {id : Int} {r : HttpResp}
    (hv : TokenOk c.access_token)
    (ht : t (getHighlightReq c id) = .resp r) (hst : isSuccess r.status = false) :
    c.highlight t id = ([getHighlightReq c id], .err (.badRequest r.status)) := by
  unfold Client.highlight Client.request
  rw [signed_request_GET _ _ _ hv, sendAndCheck_bad ht hst]
  exact mapDecode_err rfl

theorem update_patch_form (c : Client) (t : Transport) (id : Int)
    (fields : FieldMap) (hv : TokenOk c.access_token) :
    c.update_highlight t id fields =
      mapDecode (sendAndCheck t (patchReq c id fields)) decodeHighlight := by
  unfold Client.update_highlight Client.request
  dsimp only
  have hb : lookup ([("body", [fields])] : BodyMap) "body" = some (fields :: []) := by
    simp [lookup]
  rw [signed_request_PATCH _ _ hv hb]

theorem update_ok {c : Client} {t : Transport} {id : Int} {fields : FieldMap}
    {r : HttpResp} {h : Highlight} (hv : TokenOk c.access_token)
    (ht : t (patchReq c id fields) = .resp r) (hst : isSuccess r.status = true)
    (hdec : decodeHighlight r.body = some h) :
    c.update_highlight t id fields = ([patchReq c id fields], .ok h) := by
  rw [update_patch_form c t id fields hv, sendAndCheck_ok ht hst]
  exact mapDecode_ok rfl hdec

theorem update_bad {c : Client} {t : Transport} {id : Int} {fields : FieldMap}
    {r : HttpResp} (hv : TokenOk c.access_token)
    (ht : t (patchReq c id fields) = .resp r) (hst : isSuccess r.status = false) :
    c.update_highlight t id fields =
      ([patchReq c id fields], .err (.badRequest r.status)) := by
  rw [update_patch_form c t id fields hv, sendAndCheck_bad ht hst]
  exact mapDecode_err rfl

theorem delete_ok {c : Client} {t : Transport} {id : Int} {r : HttpResp}
    (hv : TokenOk c.access_token)
    (ht : t (deleteReq c id) = .resp r) (hst : isSuccess r.status = true) :
    c.delete_highlight t id = ([deleteReq c id], .ok ()) := by
  unfold Client.delete_highlight Client.request
  rw [signed_request_DELETE _ _ _ hv, sendAndCheck_ok ht hst]

theorem delete_bad {c : Client} {t : Transport} {id : Int} {r : HttpResp}
    (hv : TokenOk c.access_token)
    (ht : t (deleteReq c id) = .resp r) (hst : isSuccess r.status = false) :
    c.delete_highlight t id = ([deleteReq c id], .err (.badRequest r.status)) := by
  unfold Client.delete_highlight Client.request
  rw [signed_request_DELETE _ _ _ hv, sendAndCheck_bad ht hst]

theorem new_ok {t : Transport} {tok : String} {r : HttpResp} (hv : TokenOk tok)
    (ht : t (authReq tok) = .resp r) (hst : isSuccess r.status = true) :
    Client.new t tok = ([authReq tok], .ok ⟨tok⟩) := by
  unfold Client.new
  rw [signed_request_GET _ _ _ hv, sendAndCheck_ok ht hst]

theorem new_bad {t : Transport} {tok : String} {r : HttpResp} (hv : TokenOk tok)
    (ht : t (authReq tok) = .resp r) (hst : isSuccess r.status = false) :
    Client.new t tok = ([authReq tok], .err (.badRequest r.status)) := by
  unfold Client.new
  rw [signed_request_GET _ _ _ hv, sendAndCheck_bad ht hst]

theorem auth_ok {t : Transport} {tok : String} {r : HttpResp} (hv : TokenOk tok)
    (ht : t (authReq tok) = .resp r) (hst : isSuccess r.status = true) :
    auth t tok = ([authReq tok], .ok ⟨tok⟩) := by
  unfold auth
  rw [signed_request_GET _ _ _ hv, sendAndCheck_ok ht hst]

theorem auth_bad {t : Transport} {tok : String} {r : HttpResp} (hv : TokenOk tok)
    (ht : t (authReq tok) = .resp r) (hst : isSuccess r.status = false) :
    auth t tok = ([authReq tok], .err (.badRequest r.status)) := by
  unfold auth
  rw [signed_request_GET _ _ _ hv, sendAndCheck_bad ht hst]

theorem create_post_ok {c : Client} {t : Transport} {hs : List FieldMap}
    {r : HttpResp} {items : List HighlightCreateResponse}
    (hv : TokenOk c.access_token)
    (ht : t (postCreateReq c hs) = .resp r) (hst : isSuccess r.status = true)
    (hdec : decodeCreateList r.body = some items) :
    c.create_highlights t hs =
      (postCreateReq c hs :: (fetchHighlights c t (flatIds items)).1,
       (fetchHighlights c t (flatIds items)).2) := by
  unfold Client.create_highlights Client.request
  dsimp only
  rw [signed_request_POST _ _ _ hv, sendAndCheck_ok ht hst,
    mapDecode_ok rfl hdec]
  rcases hf : fetchHighlights c t (flatIds items) with ⟨log2, out⟩
  simp only [flatIds] at hf
  simp [hf]

theorem create_post_bad {c : Client} {t : Transport} {hs : List FieldMap}
    {r : HttpResp} (hv : TokenOk c.access_token)
    (ht : t (postCreateReq c hs) = .resp r) (hst : isSuccess r.status = false) :
    c.create_highlights t hs =
      ([postCreateReq c hs], .err (.badRequest r.status)) := by
  unfold Client.create_highlights Client.request
  dsimp only
  rw [signed_request_POST _ _ _ hv, sendAndCheck_bad ht hst,
    mapDecode_err rfl]

theorem fetchHighlights_all_ok {c : Client} {t : Transport} {H : Int → Highlight} :
    ∀ ids : List Int,
      (∀ id ∈ ids, c.highlight t id = ([getHighlightReq c id], .ok (H id))) →
      fetchHighlights c t ids = (ids.map (getHighlightReq c), .ok (ids.map H))
  | [], _ => rfl
  | id :: rest, h => by
    have hid := h id (by simp)
    have hrest := fetchHighlights_all_ok rest (fun i hi => h i (by simp [hi]))
    unfold fetchHighlights
    rw [hid, hrest]
    simp

theorem fetchHighlights_first_err {c : Client} {t : Transport} {H : Int → Highlight}
    {bad : Int} {e : Error} {logb : List HttpRequest} :
    ∀ pre rest : List Int,
      (∀ id ∈ pre, c.highlight t id = ([getHighlightReq c id], .ok (H id))) →
      c.highlight t bad = (logb, .err e) →
      fetchHighlights c t (pre ++ bad :: rest) =
        (pre.map (getHighlightReq c) ++ logb, .err e)
  | [], rest, _, hbad => by
    rw [List.nil_append]
    unfold fetchHighlights
    rw [hbad]
    simp
  | id :: pre, rest, h, hbad => by
    have hid := h id (by simp)
    have hpre := fetchHighlights_first_err pre rest (fun i hi => h i (by simp [hi])) hbad
    rw [List.cons_append]
    unfold fetchHighlights
    rw [hid, hpre]
    simp

theorem lib_books_ok {lc : Lib.Client} {t : Transport} {page : Int}
    {r : HttpResp} {env : BooksResponse} (hv : TokenOk lc.access_token)
    (ht : t (Lib.booksReq lc page) = .resp r) (hst : isSuccess r.status = true)
    (hdec : decodeBooksResponse r.body = some env) :
    lc.books t page = ([Lib.booksReq lc page], .ok env.results) := by
  unfold Lib.Client.books
  rw [lib_signed_request_GET _ _ _ hv, sendRaw_resp ht]
  simp [hst, hdec]

theorem lib_highlights_ok {lc : Lib.Client} {t : Transport} {page : Int}
    {r : HttpResp} {env : HighlightsResponse} (hv : TokenOk lc.access_token)
    (ht : t (Lib.highlightsReq lc page) = .resp r) (hst : isSuccess r.status = true)
    (hdec : decodeHighlightsResponse r.body = some env) :
    lc.highlights t page = ([Lib.highlightsReq lc page], .ok env.results) := by
  unfold Lib.Client.highlights
  rw [lib_signed_request_GET _ _ _ hv, sendRaw_resp ht]
  simp [hst, hdec]

theorem lib_book_bad {lc : Lib.Client} {t : Transport} {id : Int} {r : HttpResp}
    (hv : TokenOk lc.access_token)
    (ht : t (Lib.bookReq lc id) = .resp r) (hst : isSuccess r.status = false) :
    lc.book t id = ([Lib.bookReq lc id], .err (.fetchBookFailed id)) := by
  unfold Lib.Client.book
  rw [lib_signed_request_GET _ _ _ hv, sendRaw_resp ht]
  simp [hst]

theorem lib_highlight_bad {lc : Lib.Client} {t : Transport} {id : Int} {r : HttpResp}
    (hv : TokenOk lc.access_token)
    (ht : t (Lib.getHighlightReq lc id) = .resp r) (hst : isSuccess r.status = false) :
    lc.highlight t id = ([Lib.getHighlightReq lc id], .err (.fetchHighlightFailed id)) := by
  unfold Lib.Client.highlight
  rw [lib_signed_request_GET _ _ _ hv, sendRaw_resp ht]
  simp [hst]

theorem lib_highlight_ok {lc : Lib.Client} {t : Transport} {id : Int} {r : HttpResp}
    {h : Highlight} (hv : TokenOk lc.access_token)
    (ht : t (Lib.getHighlightReq lc id) = .resp r) (hst : isSuccess r.status = true)
    (hdec : decodeHighlight r.body = some h) :
    lc.highlight t id = ([Lib.getHighlightReq lc id], .ok h) := by
  unfold Lib.Client.highlight
  rw [lib_signed_request_GET _ _ _ hv, sendRaw_resp ht]
  simp [hst, hdec]

theorem lib_update_bad {lc : Lib.Client} {t : Transport} {id : Int}
    {fields : FieldMap} {r : HttpResp} (hv : TokenOk lc.access_token)
    (ht : t (Lib.patchReq lc id fields) = .resp r) (hst : isSuccess r.status = false) :
    lc.update t id fields = ([Lib.patchReq lc id fields], .err (.updateFailed id)) := by
  unfold Lib.Client.update
  dsimp only
  have hb : lookup ([("body", [fields])] : BodyMap) "body" = some (fields :: []) := by
    simp [lookup]
  rw [lib_signed_request_PATCH _ _ hv hb, sendRaw_resp ht]
  simp [hst]

theorem lib_delete_bad {lc : Lib.Client} {t : Transport} {id : Int} {r : HttpResp}
    (hv : TokenOk lc.access_token)
    (ht : t (Lib.deleteReq lc id) = .resp r) (hst : isSuccess r.status = false) :
    lc.delete t id = ([Lib.deleteReq lc id], .err (.deleteFailed id)) := by
  unfold Lib.Client.delete
  rw [lib_signed_request_DELETE _ _ _ hv, sendRaw_resp ht]
  simp [hst]

theorem lib_auth_ok {t : Transport} {tok : String} {r : HttpResp} (hv : TokenOk tok)
    (ht : t (authReq tok) = .resp r) (hst : isSuccess r.status = true) :
    Lib.auth t tok = ([authReq tok], .ok ⟨tok⟩) := by
  unfold Lib.auth
  rw [lib_signed_request_GET _ _ _ hv, sendRaw_resp ht]
  simp [hst]

theorem lib_auth_bad {t : Transport} {tok : String} {r : HttpResp} (hv : TokenOk tok)
    (ht : t (authReq tok) = .resp r) (hst : isSuccess r.status = false) :
    Lib.auth t tok = ([authReq tok], .err (.authFailed r.status)) := by
  unfold Lib.auth
  rw [lib_signed_request_GET _ _ _ hv, sendRaw_resp ht]
  simp [hst]

theorem lib_fetchHighlights_all_ok {lc : Lib.Client} {t : Transport}
    {H : Int → Highlight} :
    ∀ ids : List Int,
      (∀ id ∈ ids, lc.highlight t id = ([Lib.getHighlightReq lc id], .ok (H id))) →
      Lib.fetchHighlights lc t ids = (ids.map (Lib.getHighlightReq lc), .ok (ids.map H))
  | [], _ => rfl
  | id :: rest, h => by
    have hid := h id (by simp)
    have hrest := lib_fetchHighlights_all_ok rest (fun i hi => h i (by simp [hi]))
    unfold Lib.fetchHighlights
    rw [hid, hrest]
    simp

theorem lib_fetchHighlights_first_err {lc : Lib.Client} {t : Transport}
    {H : Int → Highlight} {bad : Int} {e : Lib.Error} {logb : List HttpRequest} :
    ∀ pre rest : List Int,
      (∀ id ∈ pre, lc.highlight t id = ([Lib.getHighlightReq lc id], .ok (H id))) →
      lc.highlight t bad = (logb, .err e) →
      Lib.fetchHighlights lc t (pre ++ bad :: rest) =
        (pre.map (Lib.getHighlightReq lc) ++ logb, .err e)
  | [], rest, _, hbad => by
    rw [List.nil_append]
    unfold Lib.fetchHighlights
    rw [hbad]
    simp
  | id :: pre, rest, h, hbad => by
    have hid := h id (by simp)
    have hpre := lib_fetchHighlights_first_err pre rest (fun i hi => h i (by simp [hi])) hbad
    rw [List.cons_append]
    unfold Lib.fetchHighlights
    rw [hid, hpre]
    simp

theorem lib_create_post_ok {lc : Lib.Client} {t : Transport} {hs : List FieldMap}
    {r : HttpResp} {items : List HighlightCreateResponse}
    (hv : TokenOk lc.access_token)
    (ht : t (Lib.postCreateReq lc hs) = .resp r) (hst : isSuccess r.status = true)
    (hdec : decodeCreateList r.body = some items) :
    lc.create t hs =
      (Lib.postCreateReq lc hs :: (Lib.fetchHighlights lc t (flatIds items)).1,
       (Lib.fetchHighlights lc t (flatIds items)).2) := by
  unfold Lib.Client.create
  dsimp only
  rw [lib_signed_request_POST _ _ _ hv, sendRaw_resp ht]
  rcases hf : Lib.fetchHighlights lc t (flatIds items) with ⟨log2, out⟩
  simp only [flatIds] at hf
  simp [hst, hdec, hf]

theorem lib_create_post_bad {lc : Lib.Client} {t : Transport} {hs : List FieldMap}
    {r : HttpResp} (hv : TokenOk lc.access_token)
    (ht : t (Lib.postCreateReq lc hs) = .resp r) (hst : isSuccess r.status = false) :
    lc.create t hs = ([Lib.postCreateReq lc hs], .err (.createFailed r.status)) := by
  unfold Lib.Client.create
  dsimp only
  rw [lib_signed_request_POST _ _ _ hv, sendRaw_resp ht]
  simp [hst]

theorem signed_request_mem {t : Transport} {ep tok : String} {m : Method}
    {b : Option BodyMap} :
    ∀ req ∈ (signed_request t ep tok m b).1,
      req.url = request_url ++ "/api/v2" ++ ep ∧
      req.headers = [("Authorization", "Token " ++ tok)] ∧
      req.method = m ∧
      (m = .GET ∨ m = .POST ∨ m = .PATCH ∨ m = .DELETE) := by
  intro req hreq
  unfold signed_request at hreq
  rcases hh : headerValueFromStr ("Token " ++ tok) with _ | hvv <;> rw [hh] at hreq
  · simp at hreq
  · obtain rfl : hvv = "Token " ++ tok := headerValueFromStr_eq hh
    cases m with
    | GET =>
      rw [sendAndCheck_fst] at hreq
      obtain rfl := List.mem_singleton.mp hreq
      exact ⟨rfl, rfl, rfl, .inl rfl⟩
    | POST =>
      rcases b with _ | bb
      · simp at hreq
      · rw [sendAndCheck_fst] at hreq
        obtain rfl := List.mem_singleton.mp hreq
        exact ⟨rfl, rfl, rfl, .inr (.inl rfl)⟩
    | PATCH =>
      rcases b with _ | bb
      · simp at hreq
      · dsimp only at hreq
        rcases hl : lookup bb "body" with _ | fl <;> rw [hl] at hreq
        · simp at hreq
        · rcases fl with _ | ⟨f, fs⟩
          · simp at hreq
          · rw [sendAndCheck_fst] at hreq
            obtain rfl := List.mem_singleton.mp hreq
            exact ⟨rfl, rfl, rfl, .inr (.inr (.inl rfl))⟩
    | DELETE =>
      rw [sendAndCheck_fst] at hreq
      obtain rfl := List.mem_singleton.mp hreq
      exact ⟨rfl, rfl, rfl, .inr (.inr (.inr rfl))⟩
    | PUT => simp at hreq
    | HEAD => simp at hreq
    | OPTIONS => simp at hreq
    | CONNECT => simp at hreq
    | TRACE => simp at hreq

theorem lib_signed_request_mem {t : Transport} {ep tok : String} {m : Method}
    {b : Option BodyMap} :
    ∀ req ∈ (Lib.signed_request t ep tok m b).1,
      req.url = request_url ++ "/api/v2" ++ ep ∧
      req.headers = [("Authorization", "Token " ++ tok)] ∧
      req.method = m ∧
      (m = .GET ∨ m = .POST ∨ m = .PATCH ∨ m = .DELETE) := by
  intro req hreq
  unfold Lib.signed_request at hreq
  rcases hh : headerValueFromStr ("Token " ++ tok) with _ | hvv <;> rw [hh] at hreq
  · simp at hreq
  · obtain rfl : hvv = "Token " ++ tok := headerValueFromStr_eq hh
    cases m with
    | GET =>
      rw [sendRaw_fst] at hreq
      obtain rfl := List.mem_singleton.mp hreq
      exact ⟨rfl, rfl, rfl, .inl rfl⟩
    | POST =>
      rcases b with _ | bb
      · simp at hreq
      · rw [sendRaw_fst] at hreq
        obtain rfl := List.mem_singleton.mp hreq
        exact ⟨rfl, rfl, rfl, .inr (.inl rfl)⟩
    | PATCH =>
      rcases b with _ | bb
      · simp at hreq
      · dsimp only at hreq
        rcases hl : lookup bb "body" with _ | fl <;> rw [hl] at hreq
        · simp at hreq
        · rcases fl with _ | ⟨f, fs⟩
          · simp at hreq
          · rw [sendRaw_fst] at hreq
            obtain rfl := List.mem_singleton.mp hreq
            exact ⟨rfl, rfl, rfl, .inr (.inr (.inl rfl))⟩
    | DELETE =>
      rw [sendRaw_fst] at hreq
      obtain rfl := List.mem_singleton.mp hreq
      exact ⟨rfl, rfl, rfl, .inr (.inr (.inr rfl))⟩
    | PUT => simp at hreq
    | HEAD => simp at hreq
    | OPTIONS => simp at hreq
    | CONNECT => simp at hreq
    | TRACE => simp at hreq

theorem highlight_log_mem {c : Client} {t : Transport} {id : Int} :
    ∀ req ∈ (c.highlight t id).1,
      req.url = request_url ++ "/api/v2" ++ ("/highlights/" ++ toString id) ∧
      req.headers = [("Authorization", "Token " ++ c.access_token)] ∧
      req.method = .GET := by
  intro req hreq
  unfold Client.highlight Client.request at hreq
  rw [mapDecode_fst] at hreq
  obtain ⟨h1, h2, h3, -⟩ := signed_request_mem req hreq
  exact ⟨h1, h2, h3⟩

theorem fetch_log_mem {c : Client} {t : Transport} :
    ∀ ids : List Int, ∀ req ∈ (fetchHighlights c t ids).1,
      ∃ id, req ∈ (c.highlight t id).1
  | [] => by intro req h; simp [fetchHighlights] at h
  | id :: rest => by
    intro req h
    unfold fetchHighlights at h
    rcases hh : c.highlight t id with ⟨log1, out1⟩
    rw [hh] at h
    cases out1 with
    | ok h1 =>
      rcases hf : fetchHighlights c t rest with ⟨log2, out2⟩
      rw [hf] at h
      have hmem : req ∈ log1 ++ log2 := by cases out2 <;> simpa using h
      rcases List.mem_append.mp hmem with hm | hm
      · exact ⟨id, by rw [hh]; exact hm⟩
      · obtain ⟨i, hi⟩ := fetch_log_mem rest req (by rw [hf]; exact hm)
        exact ⟨i, hi⟩
    | err e =>
      exact ⟨id, by rw [hh]; simpa using h⟩
    | panic msg =>
      exact ⟨id, by rw [hh]; simpa using h⟩

theorem create_log_mem {c : Client} {t : Transport} {hs : List FieldMap} :
    ∀ req ∈ (c.create_highlights t hs).1,
      req.headers = [("Authorization", "Token " ++ c.access_token)] ∧
      ∃ p, req.url = request_url ++ "/api/v2" ++ p := by
  intro req hreq
  unfold Client.create_highlights Client.request at hreq
  dsimp only at hreq
  rcases hm : mapDecode
      (signed_request t "/highlights" c.access_token .POST
        (some [("highlights", hs)])) decodeCreateList with ⟨log, out⟩
  have hlog : log =
      (signed_request t "/highlights" c.access_token .POST
        (some [("highlights", hs)])).1 := by
    rw [← mapDecode_fst
      (signed_request t "/highlights" c.access_token .POST
        (some [("highlights", hs)])) decodeCreateList, hm]
  rw [hm] at hreq
  have hsigned : ∀ q ∈ log,
      q.headers = [("Authorization", "Token " ++ c.access_token)] ∧
      ∃ p, q.url = request_url ++ "/api/v2" ++ p := by
    intro q hq
    rw [hlog] at hq
    obtain ⟨h1, h2, -, -⟩ := signed_request_mem q hq
    exact ⟨h2, "/highlights", h1⟩
  cases out with
  | ok items =>
    dsimp only at hreq
    rcases hf : fetchHighlights c t
        ((items.map HighlightCreateResponse.modified_highlights).flatten) with ⟨log2, out2⟩
    rw [hf] at hreq
    have hmem : req ∈ log ++ log2 := by simpa using hreq
    rcases List.mem_append.mp hmem with hm2 | hm2
    · exact hsigned req hm2
    · obtain ⟨i, hi⟩ := fetch_log_mem _ req (by rw [hf]; exact hm2)
      obtain ⟨h1, h2, -⟩ := highlight_log_mem req hi
      exact ⟨h2, "/highlights/" ++ toString i, h1⟩
  | err e => exact hsigned req (by simpa using hreq)
  | panic msg => exact hsigned req (by simpa using hreq)

theorem sendAndCheck_no_unsup (t : Transport) (req : HttpRequest) :
    (sendAndCheck t req).2.isUnsupportedErr = false := by
  unfold sendAndCheck
  cases t req with
  | netError => rfl
  | resp r => by_cases h : isSuccess r.status <;> simp [h, Outcome.isUnsupportedErr]

theorem sendAndCheck_no_panic (t : Transport) (req : HttpRequest) :
    (sendAndCheck t req).2.isPanic = false := by
  unfold sendAndCheck
  cases t req with
  | netError => rfl
  | resp r => by_cases h : isSuccess r.status <;> simp [h, Outcome.isPanic]

theorem mapDecode_unsup {α : Type} (run : Run Error HttpResp) (dec : Json → Option α) :
    (mapDecode run dec).2.isUnsupportedErr = run.2.isUnsupportedErr := by
  rcases run with ⟨log, out⟩
  cases out with
  | panic msg => rfl
  | err e => cases e <;> rfl
  | ok r =>
    rcases h : dec r.body with _ | a <;> simp [mapDecode, h, Outcome.isUnsupportedErr]

theorem mapDecode_panic {α : Type} (run : Run Error HttpResp) (dec : Json → Option α) :
    (mapDecode run dec).2.isPanic = run.2.isPanic := by
  rcases run with ⟨log, out⟩
  cases out with
  | panic msg => rfl
  | err e => cases e <;> rfl
  | ok r =>
    rcases h : dec r.body with _ | a <;> simp [mapDecode, h, Outcome.isPanic]

theorem signed_request_GET_no_unsup (t : Transport) (ep tok : String)
    (b : Option BodyMap) : (signed_request t ep tok .GET b).2.isUnsupportedErr = false := by
  unfold signed_request
  rcases hh : headerValueFromStr ("Token " ++ tok) with _ | hvv
  · rfl
  · exact sendAndCheck_no_unsup t _

theorem signed_request_DELETE_no_unsup (t : Transport) (ep tok : String)
    (b : Option BodyMap) : (signed_request t ep tok .DELETE b).2.isUnsupportedErr = false := by
  unfold signed_request
  rcases hh : headerValueFromStr ("Token " ++ tok) with _ | hvv
  · rfl
  · exact sendAndCheck_no_unsup t _

theorem signed_request_POST_no_unsup (t : Transport) (ep tok : String)
    (b : Option BodyMap) : (signed_request t ep tok .POST b).2.isUnsupportedErr = false := by
  unfold signed_request
  rcases hh : headerValueFromStr ("Token " ++ tok) with _ | hvv
  · rfl
  · rcases b with _ | bb
    · rfl
    · exact sendAndCheck_no_unsup t _

theorem signed_request_PATCH_no_unsup (t : Transport) (ep tok : String)
    (b : Option BodyMap) : (signed_request t ep tok .PATCH b).2.isUnsupportedErr = false := by
  unfold signed_request
  rcases hh : headerValueFromStr ("Token " ++ tok) with _ | hvv
  · rfl
  · rcases b with _ | bb
    · rfl
    · dsimp only
      rcases hl : lookup bb "body" with _ | fl
      · rfl
      · rcases fl with _ | ⟨f, fs⟩
        · rfl
        · exact sendAndCheck_no_unsup t _

theorem signed_request_GET_no_panic (t : Transport) (ep tok : String)
    (b : Option BodyMap) : (signed_request t ep tok .GET b).2.isPanic = false := by
  unfold signed_request
  rcases hh : headerValueFromStr ("Token " ++ tok) with _ | hvv
  · rfl
  · exact sendAndCheck_no_panic t _

theorem signed_request_DELETE_no_panic (t : Transport) (ep tok : String)
    (b : Option BodyMap) : (signed_request t ep tok .DELETE b).2.isPanic = false := by
  unfold signed_request
  rcases hh : headerValueFromStr ("Token " ++ tok) with _ | hvv
  · rfl
  · exact sendAndCheck_no_panic t _

theorem signed_request_POST_no_panic (t : Transport) (ep tok : String)
    (b : BodyMap) : (signed_request t ep tok .POST (some b)).2.isPanic = false := by
  unfold signed_request
  rcases hh : headerValueFromStr ("Token " ++ tok) with _ | hvv
  · rfl
  · exact sendAndCheck_no_panic t _

theorem signed_request_PATCH_no_panic (t : Transport) (ep tok : String)
    {b : BodyMap} {f : FieldMap} {fs : List FieldMap}
    (hb : lookup b "body" = some (f :: fs)) :
    (signed_request t ep tok .PATCH (some b)).2.isPanic = false := by
  unfold signed_request
  rcases hh : headerValueFromStr ("Token " ++ tok) with _ | hvv
  · rfl
  · dsimp only
    rw [hb]
    exact sendAndCheck_no_panic t _

theorem books_no_unsup (c : Client) (t : Transport) (page : Nat) :
    (c.books t page).2.isUnsupportedErr = false := by
  unfold Client.books Client.request
  rw [mapDecode_unsup]
  exact signed_request_GET_no_unsup t _ _ none

theorem highlights_no_unsup (c : Client) (t : Transport) (page : Nat) :
    (c.highlights t page).2.isUnsupportedErr = false := by
  unfold Client.highlights Client.request
  rw [mapDecode_unsup]
  exact signed_request_GET_no_unsup t _ _ none

theorem book_no_unsup (c : Client) (t : Transport) (id : Int) :
    (c.book t id).2.isUnsupportedErr = false := by
  unfold Client.book Client.request
  rw [mapDecode_unsup]
  exact signed_request_GET_no_unsup t _ _ none

theorem highlight_no_unsup (c : Client) (t : Transport) (id : Int) :
    (c.highlight t id).2.isUnsupportedErr = false := by
  unfold Client.highlight Client.request
  rw [mapDecode_unsup]
  exact signed_request_GET_no_unsup t _ _ none

theorem update_no_unsup (c : Client) (t : Transport) (id : Int) (fields : FieldMap) :
    (c.update_highlight t id fields).2.isUnsupportedErr = false := by
  unfold Client.update_highlight Client.request
  dsimp only
  rw [mapDecode_unsup]
  exact signed_request_PATCH_no_unsup t _ _ _

theorem delete_no_unsup (c : Client) (t : Transport) (id : Int) :
    (c.delete_highlight t id).2.isUnsupportedErr = false := by
  unfold Client.delete_highlight Client.request
  rcases hm : signed_request t ("/highlights/" ++ toString id) c.access_token
      .DELETE none with ⟨log, out⟩
  have h := signed_request_DELETE_no_unsup t ("/highlights/" ++ toString id)
    c.access_token none
  rw [hm] at h
  cases out with
  | ok r => rfl
  | err e => cases e <;> simp_all [Outcome.isUnsupportedErr]
  | panic m => rfl

theorem new_no_unsup (t : Transport) (tok : String) :
    (Client.new t tok).2.isUnsupportedErr = false := by
  unfold Client.new
  rcases hm : signed_request t "/auth" tok .GET none with ⟨log, out⟩
  have h := signed_request_GET_no_unsup t "/auth" tok none
  rw [hm] at h
  cases out with
  | ok r => rfl
  | err e => cases e <;> simp_all [Outcome.isUnsupportedErr]
  | panic m => rfl

theorem auth_no_unsup (t : Transport) (tok : String) :
    (auth t tok).2.isUnsupportedErr = false := by
  unfold auth
  rcases hm : signed_request t "/auth" tok .GET none with ⟨log, out⟩
  have h := signed_request_GET_no_unsup t "/auth" tok none
  rw [hm] at h
  cases out with
  | ok r => rfl
  | err e => cases e <;> simp_all [Outcome.isUnsupportedErr]
  | panic m => rfl

theorem fetch_no_unsup (c : Client) (t : Transport) :
    ∀ ids : List Int, (fetchHighlights c t ids).2.isUnsupportedErr = false
  | [] => rfl
  | id :: rest => by
    unfold fetchHighlights
    rcases hh : c.highlight t id with ⟨log1, out1⟩
    have h1 : out1.isUnsupportedErr = false := by
      have h := highlight_no_unsup c t id
      rw [hh] at h
      exact h
    cases out1 with
    | ok hl =>
      rcases hf : fetchHighlights c t rest with ⟨log2, out2⟩
      have h2 : out2.isUnsupportedErr = false := by
        have h := fetch_no_unsup c t rest
        rw [hf] at h
        exact h
      cases out2 <;> simpa using h2
    | err e => cases e <;> simp_all [Outcome.isUnsupportedErr]
    | panic m => rfl

theorem create_no_unsup (c : Client) (t : Transport) (hs : List FieldMap) :
    (c.create_highlights t hs).2.isUnsupportedErr = false := by
  unfold Client.create_highlights Client.request
  dsimp only
  rcases hm : mapDecode
      (signed_request t "/highlights" c.access_token .POST
        (some [("highlights", hs)])) decodeCreateList with ⟨log, out⟩
  have h : out.isUnsupportedErr = false := by
    have h2 := mapDecode_unsup
      (signed_request t "/highlights" c.access_token .POST
        (some [("highlights", hs)])) decodeCreateList
    rw [hm] at h2
    rw [h2]
    exact signed_request_POST_no_unsup t _ _ _
  cases out with
  | ok items =>
    dsimp only
    rcases hf : fetchHighlights c t
        ((items.map HighlightCreateResponse.modified_highlights).flatten) with ⟨log2, out2⟩
    have h2 : out2.isUnsupportedErr = false := by
      have h3 := fetch_no_unsup c t
        ((items.map HighlightCreateResponse.modified_highlights).flatten)
      rw [hf] at h3
      exact h3
    simpa using h2
  | err e => cases e <;> simp_all [Outcome.isUnsupportedErr]
  | panic m => rfl

theorem books_no_panic (c : Client) (t : Transport) (page : Nat) :
    (c.books t page).2.isPanic = false := by
  unfold Client.books Client.request
  rw [mapDecode_panic]
  exact signed_request_GET_no_panic t _ _ none

theorem highlights_no_panic (c : Client) (t : Transport) (page : Nat) :
    (c.highlights t page).2.isPanic = false := by
  unfold Client.highlights Client.request
  rw [mapDecode_panic]
  exact signed_request_GET_no_panic t _ _ none

theorem book_no_panic (c : Client) (t : Transport) (id : Int) :
    (c.book t id).2.isPanic = false := by
  unfold Client.book Client.request
  rw [mapDecode_panic]
  exact signed_request_GET_no_panic t _ _ none

theorem highlight_no_panic (c : Client) (t : Transport) (id : Int) :
    (c.highlight t id).2.isPanic = false := by
  unfold Client.highlight Client.request
  rw [mapDecode_panic]
  exact signed_request_GET_no_panic t _ _ none

theorem update_no_panic (c : Client) (t : Transport) (id : Int) (fields : FieldMap) :
    (c.update_highlight t id fields).2.isPanic = false := by
  unfold Client.update_highlight Client.request
  dsimp only
  rw [mapDecode_panic]
  exact signed_request_PATCH_no_panic t _ _
    (by simp [lookup] : lookup ([("body", [fields])] : BodyMap) "body" = some (fields :: []))

theorem delete_no_panic (c : Client) (t : Transport) (id : Int) :
    (c.delete_highlight t id).2.isPanic = false := by
  unfold Client.delete_highlight Client.request
  rcases hm : signed_request t ("/highlights/" ++ toString id) c.access_token
      .DELETE none with ⟨log, out⟩
  have h := signed_request_DELETE_no_panic t ("/highlights/" ++ toString id)
    c.access_token none
  rw [hm] at h
  cases out with
  | ok r => rfl
  | err e => rfl
  | panic m => simpa using h

theorem new_no_panic (t : Transport) (tok : String) :
    (Client.new t tok).2.isPanic = false := by
  unfold Client.new
  rcases hm : signed_request t "/auth" tok .GET none with ⟨log, out⟩
  have h := signed_request_GET_no_panic t "/auth" tok none
  rw [hm] at h
  cases out with
  | ok r => rfl
  | err e => rfl
  | panic m => simpa using h

theorem auth_no_panic (t : Transport) (tok : String) :
    (auth t tok).2.isPanic = false := by
  unfold auth
  rcases hm : signed_request t "/auth" tok .GET none with ⟨log, out⟩
  have h := signed_request_GET_no_panic t "/auth" tok none
  rw [hm] at h
  cases out with
  | ok r => rfl
  | err e => rfl
  | panic m => simpa using h

theorem fetch_no_panic (c : Client) (t : Transport) :
    ∀ ids : List Int, (fetchHighlights c t ids).2.isPanic = false
  | [] => rfl
  | id :: rest => by
    unfold fetchHighlights
    rcases hh : c.highlight t id with ⟨log1, out1⟩
    have h1 : out1.isPanic = false := by
      have h := highlight_no_panic c t id
      rw [hh] at h
      exact h
    cases out1 with
    | ok hl =>
      rcases hf : fetchHighlights c t rest with ⟨log2, out2⟩
      have h2 : out2.isPanic = false := by
        have h := fetch_no_panic c t rest
        rw [hf] at h
        exact h
      cases out2 <;> simpa using h2
    | err e => rfl
    | panic m => simpa using h1

theorem create_no_panic (c : Client) (t : Transport) (hs : List FieldMap) :
    (c.create_highlights t hs).2.isPanic = false := by
  unfold Client.create_highlights Client.request
  dsimp only
  rcases hm : mapDecode
      (signed_request t "/highlights" c.access_token .POST
        (some [("highlights", hs)])) decodeCreateList with ⟨log, out⟩
  have h : out.isPanic = false := by
    have h2 := mapDecode_panic
      (signed_request t "/highlights" c.access_token .POST
        (some [("highlights", hs)])) decodeCreateList
    rw [hm] at h2
    rw [h2]
    exact signed_request_POST_no_panic t _ _ _
  cases out with
  | ok items =>
    dsimp only
    rcases hf : fetchHighlights c t
        ((items.map HighlightCreateResponse.modified_highlights).flatten) with ⟨log2, out2⟩
    have h2 : out2.isPanic = false := by
      have h3 := fetch_no_panic c t
        ((items.map HighlightCreateResponse.modified_highlights).flatten)
      rw [hf] at h3
      exact h3
    simpa using h2
  | err e => rfl
  | panic m => simpa using h

theorem sendRaw_no_unsup_panic (t : Transport) (req : HttpRequest) :
    (Lib.sendRaw t req).2.isUnsupPanic = false := by
  unfold Lib.sendRaw
  cases t req <;> rfl

theorem lib_signed_request_GET_no_unsup_panic (t : Transport) (ep tok : String)
    (b : Option BodyMap) : (Lib.signed_request t ep tok .GET b).2.isUnsupPanic = false := by
  unfold Lib.signed_request
  rcases hh : headerValueFromStr ("Token " ++ tok) with _ | hvv
  · rfl
  · exact sendRaw_no_unsup_panic t _

theorem lib_signed_request_DELETE_no_unsup_panic (t : Transport) (ep tok : String)
    (b : Option BodyMap) : (Lib.signed_request t ep tok .DELETE b).2.isUnsupPanic = false := by
  unfold Lib.signed_request
  rcases hh : headerValueFromStr ("Token " ++ tok) with _ | hvv
  · rfl
  · exact sendRaw_no_unsup_panic t _

theorem lib_signed_request_POST_no_unsup_panic (t : Transport) (ep tok : String)
    (b : Option BodyMap) : (Lib.signed_request t ep tok .POST b).2.isUnsupPanic = false := by
  unfold Lib.signed_request
  rcases hh : headerValueFromStr ("Token " ++ tok) with _ | hvv
  · rfl
  · rcases b with _ | bb
    · rfl
    · exact sendRaw_no_unsup_panic t _

theorem lib_signed_request_PATCH_no_unsup_panic (t : Transport) (ep tok : String)
    (b : Option BodyMap) : (Lib.signed_request t ep tok .PATCH b).2.isUnsupPanic = false := by
  unfold Lib.signed_request
  rcases hh : headerValueFromStr ("Token " ++ tok) with _ | hvv
  · rfl
  · rcases b with _ | bb
    · rfl
    · dsimp only
      rcases hl : lookup bb "body" with _ | fl
      · rfl
      · rcases fl with _ | ⟨f, fs⟩
        · rfl
        · exact sendRaw_no_unsup_panic t _

theorem lib_books_no_unsup_panic (lc : Lib.Client) (t : Transport) (page : Int) :
    (lc.books t page).2.isUnsupPanic = false := by
  unfold Lib.Client.books
  rcases hm : Lib.signed_request t ("/books?page=" ++ toString page)
      lc.access_token .GET none with ⟨log, out⟩
  have h := lib_signed_request_GET_no_unsup_panic t ("/books?page=" ++ toString page)
    lc.access_token none
  rw [hm] at h
  cases out with
  | ok r =>
    by_cases hs : isSuccess r.status
    · rcases hd : decodeBooksResponse r.body with _ | env <;>
        simp [hs, hd, Outcome.isUnsupPanic]
    · simp [hs, Outcome.isUnsupPanic]
  | err e => cases e <;> rfl
  | panic m => simpa using h

theorem lib_highlights_no_unsup_panic (lc : Lib.Client) (t : Transport) (page : Int) :
    (lc.highlights t page).2.isUnsupPanic = false := by
  unfold Lib.Client.highlights
  rcases hm : Lib.signed_request t ("/highlights?page=" ++ toString page)
      lc.access_token .GET none with ⟨log, out⟩
  have h := lib_signed_request_GET_no_unsup_panic t
    ("/highlights?page=" ++ toString page) lc.access_token none
  rw [hm] at h
  cases out with
  | ok r =>
    by_cases hs : isSuccess r.status
    · rcases hd : decodeHighlightsResponse r.body with _ | env <;>
        simp [hs, hd, Outcome.isUnsupPanic]
    · simp [hs, Outcome.isUnsupPanic]
  | err e => cases e <;> rfl
  | panic m => simpa using h

theorem lib_book_no_unsup_panic (lc : Lib.Client) (t : Transport) (id : Int) :
    (lc.book t id).2.isUnsupPanic = false := by
  unfold Lib.Client.book
  rcases hm : Lib.signed_request t ("/books/" ++ toString id)
      lc.access_token .GET none with ⟨log, out⟩
  have h := lib_signed_request_GET_no_unsup_panic t ("/books/" ++ toString id)
    lc.access_token none
  rw [hm] at h
  cases out with
  | ok r =>
    by_cases hs : isSuccess r.status
    · rcases hd : decodeBook r.body with _ | bk <;>
        simp [hs, hd, Outcome.isUnsupPanic]
    · simp [hs, Outcome.isUnsupPanic]
  | err e => cases e <;> rfl
  | panic m => simpa using h

theorem lib_highlight_no_unsup_panic (lc : Lib.Client) (t : Transport) (id : Int) :
    (lc.highlight t id).2.isUnsupPanic = false := by
  unfold Lib.Client.highlight
  rcases hm : Lib.signed_request t ("/highlights/" ++ toString id)
      lc.access_token .GET none with ⟨log, out⟩
  have h := lib_signed_request_GET_no_unsup_panic t ("/highlights/" ++ toString id)
    lc.access_token none
  rw [hm] at h
  cases out with
  | ok r =>
    by_cases hs : isSuccess r.status
    · rcases hd : decodeHighlight r.body with _ | hl <;>
        simp [hs, hd, Outcome.isUnsupPanic]
    · simp [hs, Outcome.isUnsupPanic]
  | err e => cases e <;> rfl
  | panic m => simpa using h

theorem lib_update_no_unsup_panic (lc : Lib.Client) (t : Transport) (id : Int)
    (fields : FieldMap) : (lc.update t id fields).2.isUnsupPanic = false := by
  unfold Lib.Client.update
  dsimp only
  rcases hm : Lib.signed_request t ("/highlights/" ++ toString id)
      lc.access_token .PATCH (some [("body", [fields])]) with ⟨log, out⟩
  have h := lib_signed_request_PATCH_no_unsup_panic t ("/highlights/" ++ toString id)
    lc.access_token (some [("body", [fields])])
  rw [hm] at h
  cases out with
  | ok r =>
    by_cases hs : isSuccess r.status
    · rcases hd : decodeHighlight r.body with _ | hl <;>
        simp [hs, hd, Outcome.isUnsupPanic]
    · simp [hs, Outcome.isUnsupPanic]
  | err e => cases e <;> rfl
  | panic m => simpa using h

theorem lib_delete_no_unsup_panic (lc : Lib.Client) (t : Transport) (id : Int) :
    (lc.delete t id).2.isUnsupPanic = false := by
  unfold Lib.Client.delete
  rcases hm : Lib.signed_request t ("/highlights/" ++ toString id)
      lc.access_token .DELETE none with ⟨log, out⟩
  have h := lib_signed_request_DELETE_no_unsup_panic t ("/highlights/" ++ toString id)
    lc.access_token none
  rw [hm] at h
  cases out with
  | ok r => by_cases hs : isSuccess r.status <;> simp [hs, Outcome.isUnsupPanic]
  | err e => cases e <;> rfl
  | panic m => simpa using h

theorem lib_auth_no_unsup_panic (t : Transport) (tok : String) :
    (Lib.auth t tok).2.isUnsupPanic = false := by
  unfold Lib.auth
  rcases hm : Lib.signed_request t "/auth" tok .GET none with ⟨log, out⟩
  have h := lib_signed_request_GET_no_unsup_panic t "/auth" tok none
  rw [hm] at h
  cases out with
  | ok r => by_cases hs : isSuccess r.status <;> simp [hs, Outcome.isUnsupPanic]
  | err e => cases e <;> rfl
  | panic m => simpa using h

theorem lib_fetch_no_unsup_panic (lc : Lib.Client) (t : Transport) :
    ∀ ids : List Int, (Lib.fetchHighlights lc t ids).2.isUnsupPanic = false
  | [] => rfl
  | id :: rest => by
    unfold Lib.fetchHighlights
    rcases hh : lc.highlight t id with ⟨log1, out1⟩
    have h1 : out1.isUnsupPanic = false := by
      have h := lib_highlight_no_unsup_panic lc t id
      rw [hh] at h
      exact h
    cases out1 with
    | ok hl =>
      rcases hf : Lib.fetchHighlights lc t rest with ⟨log2, out2⟩
      have h2 : out2.isUnsupPanic = false := by
        have h := lib_fetch_no_unsup_panic lc t rest
        rw [hf] at h
        exact h
      cases out2 <;> simpa using h2
    | err e => cases e <;> rfl
    | panic m => simpa using h1

theorem lib_create_no_unsup_panic (lc : Lib.Client) (t : Transport)
    (hs : List FieldMap) : (lc.create t hs).2.isUnsupPanic = false := by
  unfold Lib.Client.create
  dsimp only
  rcases hm : Lib.signed_request t "/highlights" lc.access_token .POST
      (some [("highlights", hs)]) with ⟨log, out⟩
  have h := lib_signed_request_POST_no_unsup_panic t "/highlights" lc.access_token
    (some [("highlights", hs)])
  rw [hm] at h
  cases out with
  | ok r =>
    by_cases hst : isSuccess r.status
    · rcases hd : decodeCreateList r.body with _ | items
      · simp [hst, hd, Outcome.isUnsupPanic]
      · dsimp only
        rcases hf : Lib.fetchHighlights lc t
            ((items.map HighlightCreateResponse.modified_highlights).flatten) with ⟨log2, out2⟩
        have h2 : out2.isUnsupPanic = false := by
          have h3 := lib_fetch_no_unsup_panic lc t
            ((items.map HighlightCreateResponse.modified_highlights).flatten)
          rw [hf] at h3
          exact h3
        simp only [hst, hd, hf]
        simpa using h2
    · simp [hst, Outcome.isUnsupPanic]
  | err e => cases e <;> rfl
  | panic m => simpa using h

theorem books_log (c : Client) (t : Transport) (page : Nat) :
    (c.books t page).1 =
      (signed_request t ("/books?page=" ++ toString page) c.access_token .GET none).1 := by
  unfold Client.books Client.request
  rw [mapDecode_fst]

theorem highlights_log (c : Client) (t : Transport) (page : Nat) :
    (c.highlights t page).1 =
      (signed_request t ("/highlights?page=" ++ toString page) c.access_token .GET none).1 := by
  unfold Client.highlights Client.request
  rw [mapDecode_fst]

theorem book_log (c : Client) (t : Transport) (id : Int) :
    (c.book t id).1 =
      (signed_request t ("/books/" ++ toString id) c.access_token .GET none).1 := by
  unfold Client.book Client.request
  rw [mapDecode_fst]

theorem update_log (c : Client) (t : Transport) (id : Int) (fields : FieldMap) :
    (c.update_highlight t id fields).1 =
      (signed_request t ("/highlights/" ++ toString id) c.access_token .PATCH
        (some [("body", [fields])])).1 := by
  unfold Client.update_highlight Client.request
  dsimp only
  rw [mapDecode_fst]

theorem delete_log (c : Client) (t : Transport) (id : Int) :
    (c.delete_highlight t id).1 =
      (signed_request t ("/highlights/" ++ toString id) c.access_token .DELETE none).1 := by
  unfold Client.delete_highlight Client.request
  rcases hm : signed_request t ("/highlights/" ++ toString id) c.access_token
      .DELETE none with ⟨log, out⟩
  cases out <;> rfl

theorem new_log (t : Transport) (tok : String) :
    (Client.new t tok).1 = (signed_request t "/auth" tok .GET none).1 := by
  unfold Client.new
  rcases hm : signed_request t "/auth" tok .GET none with ⟨log, out⟩
  cases out <;> rfl

theorem auth_log (t : Transport) (tok : String) :
    (auth t tok).1 = (signed_request t "/auth" tok .GET none).1 := by
  unfold auth
  rcases hm : signed_request t "/auth" tok .GET none with ⟨log, out⟩
  cases out <;> rfl

theorem lib_auth_log (t : Transport) (tok : String) :
    (Lib.auth t tok).1 = (Lib.signed_request t "/auth" tok .GET none).1 := by
  unfold Lib.auth
  rcases hm : Lib.signed_request t "/auth" tok .GET none with ⟨log, out⟩
  cases out with
  | ok r => by_cases hs : isSuccess r.status <;> simp [hs]
  | err e => rfl
  | panic m => rfl

theorem lib_books_log (lc : Lib.Client) (t : Transport) (page : Int) :
    (lc.books t page).1 =
      (Lib.signed_request t ("/books?page=" ++ toString page)
        lc.access_token .GET none).1 := by
  unfold Lib.Client.books
  rcases hm : Lib.signed_request t ("/books?page=" ++ toString page)
      lc.access_token .GET none with ⟨log, out⟩
  cases out with
  | ok r =>
    by_cases hs : isSuccess r.status
    · rcases hd : decodeBooksResponse r.body with _ | env <;> simp [hs, hd]
    · simp [hs]
  | err e => rfl
  | panic m => rfl

theorem lib_highlight_log (lc : Lib.Client) (t : Transport) (id : Int) :
    (lc.highlight t id).1 =
      (Lib.signed_request t ("/highlights/" ++ toString id)
        lc.access_token .GET none).1 := by
  unfold Lib.Client.highlight
  rcases hm : Lib.signed_request t ("/highlights/" ++ toString id)
      lc.access_token .GET none with ⟨log, out⟩
  cases out with
  | ok r =>
    by_cases hs : isSuccess r.status
    · rcases hd : decodeHighlight r.body with _ | hl <;> simp [hs, hd]
    · simp [hs]
  | err e => rfl
  | panic m => rfl

theorem lib_fetch_log_mem {lc : Lib.Client} {t : Transport} :
    ∀ (ids : List Int) (req : HttpRequest),
      req ∈ (Lib.fetchHighlights lc t ids).1 →
      req.headers = [("Authorization", "Token " ++ lc.access_token)]
  | [] => by intro req h; simp [Lib.fetchHighlights] at h
  | id :: rest => by
    intro req h
    unfold Lib.fetchHighlights at h
    rcases hh : lc.highlight t id with ⟨log1, out1⟩
    rw [hh] at h
    have hmem1 : req ∈ log1 →
        req.headers = [("Authorization", "Token " ++ lc.access_token)] := by
      intro hin
      have h2 : req ∈ (lc.highlight t id).1 := by rw [hh]; exact hin
      rw [lib_highlight_log] at h2
      exact (lib_signed_request_mem req h2).2.1
    cases out1 with
    | ok h1 =>
      rcases hf : Lib.fetchHighlights lc t rest with ⟨log2, out2⟩
      rw [hf] at h
      have hmem : req ∈ log1 ++ log2 := by cases out2 <;> simpa using h
      rcases List.mem_append.mp hmem with hm | hm
      · exact hmem1 hm
      · exact lib_fetch_log_mem rest req (by rw [hf]; exact hm)
    | err e => exact hmem1 (by simpa using h)
    | panic msg => exact hmem1 (by simpa using h)

theorem lib_create_log_mem {lc : Lib.Client} {t : Transport} {hs : List FieldMap} :
    ∀ req ∈ (lc.create t hs).1,
      req.headers = [("Authorization", "Token " ++ lc.access_token)] := by
  intro req hreq
  unfold Lib.Client.create at hreq
  dsimp only at hreq
  rcases hm : Lib.signed_request t "/highlights" lc.access_token .POST
      (some [("highlights", hs)]) with ⟨lg, out⟩
  rw [hm] at hreq
  have hlg : ∀ q ∈ lg,
      q.headers = [("Authorization", "Token " ++ lc.access_token)] := by
    intro q hin
    have h2 : q ∈ (Lib.signed_request t "/highlights" lc.access_token .POST
        (some [("highlights", hs)])).1 := by rw [hm]; exact hin
    exact (lib_signed_request_mem q h2).2.1
  cases out with
  | ok r =>
    by_cases hst : isSuccess r.status
    · rcases hd : decodeCreateList r.body with _ | items
      · simp only [hst, if_true, hd] at hreq
        exact hlg req hreq
      · simp only [hst, if_true, hd] at hreq
        rcases hf : Lib.fetchHighlights lc t
            ((items.map HighlightCreateResponse.modified_highlights).flatten) with ⟨lg2, out2⟩
        rw [hf] at hreq
        have hmem : req ∈ lg ++ lg2 := by simpa using hreq
        rcases List.mem_append.mp hmem with hm2 | hm2
        · exact hlg req hm2
        · exact lib_fetch_log_mem _ req (by rw [hf]; exact hm2)
    · simp only [hst, if_false] at hreq
      exact hlg req hreq
  | err e => exact hlg req (by simpa using hreq)
  | panic m => exact hlg req (by simpa using hreq)

/-- C1: when the initial POST to `/highlights` (whose body is the serialized
`{"highlights": items}` map) succeeds and decodes to a list of create-response
records, `create_highlights` (and the legacy `create`) flattens the
`modified_highlights` ids across all records in encounter order and then:
if the flattened list is empty it returns `ok []` having dispatched only the
POST (no follow-up call); if every follow-up GET succeeds it dispatches
exactly one GET per id, in that order, and returns the fetched highlights in
that order; and at the first failing follow-up it stops, returns that error
and no partial result. -/
theorem create_highlights_spec (c : Client) (lc : Lib.Client) (t : Transport)
    (hs : List FieldMap) (r : HttpResp) (items : List HighlightCreateResponse)
    (H : Int → Highlight) :
    (TokenOk c.access_token → t (postCreateReq c hs) = .resp r →
     isSuccess r.status = true → decodeCreateList r.body = some items →
      ((flatIds items = [] →
         c.create_highlights t hs = ([postCreateReq c hs], .ok [])) ∧
       ((∀ id ∈ flatIds items,
           c.highlight t id = ([getHighlightReq c id], .ok (H id))) →
         c.create_highlights t hs =
           (postCreateReq c hs :: (flatIds items).map (getHighlightReq c),
            .ok ((flatIds items).map H))) ∧
       (∀ (pre : List Int) (bad : Int) (rest : List Int)
          (logb : List HttpRequest) (e : Error),
         flatIds items = pre ++ bad :: rest →
         (∀ id ∈ pre, c.highlight t id = ([getHighlightReq c id], .ok (H id))) →
         c.highlight t bad = (logb, .err e) →
         c.create_highlights t hs =
           (postCreateReq c hs :: (pre.map (getHighlightReq c) ++ logb), .err e)))) ∧
    (TokenOk lc.access_token → t (Lib.postCreateReq lc hs) = .resp r →
     isSuccess r.status = true → decodeCreateList r.body = some items →
      ((flatIds items = [] →
         lc.create t hs = ([Lib.postCreateReq lc hs], .ok [])) ∧
       ((∀ id ∈ flatIds items,
           lc.highlight t id = ([Lib.getHighlightReq lc id], .ok (H id))) →
         lc.create t hs =
           (Lib.postCreateReq lc hs :: (flatIds items).map (Lib.getHighlightReq lc),
            .ok ((flatIds items).map H))) ∧
       (∀ (pre : List Int) (bad : Int) (rest : List Int)
          (logb : List HttpRequest) (e : Lib.Error),
         flatIds items = pre ++ bad :: rest →
         (∀ id ∈ pre, lc.highlight t id = ([Lib.getHighlightReq lc id], .ok (H id))) →
         lc.highlight t bad = (logb, .err e) →
         lc.create t hs =
           (Lib.postCreateReq lc hs :: (pre.map (Lib.getHighlightReq lc) ++ logb),
            .err e)))) := by
  constructor
  · intro hv ht hst hdec
    refine ⟨?_, ?_, ?_⟩
    · intro hids
      have h := create_post_ok hv ht hst hdec
      rw [hids] at h
      have hnil : fetchHighlights c t [] = ([], .ok []) := rfl
      rw [hnil] at h
      simpa using h
    · intro hall
      have hfet := fetchHighlights_all_ok (flatIds items) hall
      rw [create_post_ok hv ht hst hdec, hfet]
    · intro pre bad rest logb e hsplit hpre hbad
      have hfet := fetchHighlights_first_err pre rest hpre hbad
      rw [create_post_ok hv ht hst hdec, hsplit, hfet]
  · intro hv ht hst hdec
    refine ⟨?_, ?_, ?_⟩
    · intro hids
      have h := lib_create_post_ok hv ht hst hdec
      rw [hids] at h
      have hnil : Lib.fetchHighlights lc t [] = ([], .ok []) := rfl
      rw [hnil] at h
      simpa using h
    · intro hall
      have hfet := lib_fetchHighlights_all_ok (flatIds items) hall
      rw [lib_create_post_ok hv ht hst hdec, hfet]
    · intro pre bad rest logb e hsplit hpre hbad
      have hfet := lib_fetchHighlights_first_err pre rest hpre hbad
      rw [lib_create_post_ok hv ht hst hdec, hsplit, hfet]

/-- C1 witness: against `w1T` (POST reporting modified highlights 1 and 2),
`create_highlights([{"text": "hello world!"}])` dispatches the POST then the
two GETs in order and returns the two highlights in order; against `w2T`
(`modified_highlights: []`) it returns the empty list after the POST alone. -/
theorem create_highlights_spec_witness :
    Client.create_highlights ⟨"token"⟩ w1T [[("text", "hello world!")]] =
      ([postCreateReq ⟨"token"⟩ [[("text", "hello world!")]],
        getHighlightReq ⟨"token"⟩ 1, getHighlightReq ⟨"token"⟩ 2],
       .ok [hlVal 1 "a", hlVal 2 "b"]) ∧
    Client.create_highlights ⟨"token"⟩ w2T [[("text", "hello world!")]] =
      ([postCreateReq ⟨"token"⟩ [[("text", "hello world!")]]], .ok []) := by
  constructor
  · exact ((create_highlights_spec ⟨"token"⟩ ⟨"token"⟩ w1T
      [[("text", "hello world!")]] ⟨200, .arr [createItemJson [1, 2]]⟩
      [createItemVal [1, 2]] w1H).1 rfl rfl rfl rfl).2.1
      (by
        intro id hid
        have h2 : id = 1 ∨ id = 2 := by
          simpa [flatIds, createItemVal] using hid
        rcases h2 with rfl | rfl <;> rfl)
  · exact ((create_highlights_spec ⟨"token"⟩ ⟨"token"⟩ w2T
      [[("text", "hello world!")]] ⟨200, .arr [createItemJson []]⟩
      [createItemVal []] w1H).1 rfl rfl rfl rfl).1 rfl

/-- C2 counterexample: the legacy `lib::Client::book` answers a 404 response
and a 500 response with the SAME error value (its `anyhow!` message
interpolates only the id), so its error cannot carry — and thus discards —
the response's status code, refuting the claim for the get-book operation of
`src/lib.rs` (similarly get-highlight, update and delete there). -/
theorem bad_status_counterexample :
    (Lib.Client.book ⟨"token"⟩ (constT 404) 1).2 = .err (.fetchBookFailed 1) ∧
    (Lib.Client.book ⟨"token"⟩ (constT 500) 1).2 = .err (.fetchBookFailed 1) ∧
    (404 : Nat) ≠ 500 :=
  ⟨rfl, rfl, by decide⟩

/-- C2 amended: in the modular client (`src/client.rs`) every operation —
list books, list highlights, get book, get highlight, create highlights,
update highlight, delete highlight, and authentication — fails on a non-2xx
response with `Error::BadRequest` carrying that response's status code; the
legacy flat revision (`src/lib.rs`) instead discards the status code in its
get-book, get-highlight, update and delete errors, which carry only the id. -/
theorem bad_status_errors (c : Client) (lc : Lib.Client) (t : Transport)
    (r : HttpResp) (tok : String) (page : Nat) (lid id : Int)
    (fields : FieldMap) (hs : List FieldMap)
    (hv : TokenOk c.access_token) (hv2 : TokenOk tok)
    (hv3 : TokenOk lc.access_token)
    (ht : ∀ req, t req = .resp r) (hbad : isSuccess r.status = false) :
    (c.books t page).2 = .err (.badRequest r.status) ∧
    (c.highlights t page).2 = .err (.badRequest r.status) ∧
    (c.book t id).2 = .err (.badRequest r.status) ∧
    (c.highlight t id).2 = .err (.badRequest r.status) ∧
    (c.create_highlights t hs).2 = .err (.badRequest r.status) ∧
    (c.update_highlight t id fields).2 = .err (.badRequest r.status) ∧
    (c.delete_highlight t id).2 = .err (.badRequest r.status) ∧
    (Client.new t tok).2 = .err (.badRequest r.status) ∧
    (auth t tok).2 = .err (.badRequest r.status) ∧
    (lc.book t lid).2 = .err (.fetchBookFailed lid) ∧
    (lc.highlight t lid).2 = .err (.fetchHighlightFailed lid) ∧
    (lc.update t lid fields).2 = .err (.updateFailed lid) ∧
    (lc.delete t lid).2 = .err (.deleteFailed lid) := by
  refine ⟨?_, ?_, ?_, ?_, ?_, ?_, ?_, ?_, ?_, ?_, ?_, ?_, ?_⟩
  · rw [books_bad hv (ht _) hbad]
  · rw [highlights_bad hv (ht _) hbad]
  · rw [book_bad hv (ht _) hbad]
  · rw [highlight_bad hv (ht _) hbad]
  · rw [create_post_bad hv (ht _) hbad]
  · rw [update_bad hv (ht _) hbad]
  · rw [delete_bad hv (ht _) hbad]
  · rw [new_bad hv2 (ht _) hbad]
  · rw [auth_bad hv2 (ht _) hbad]
  · rw [lib_book_bad hv3 (ht _) hbad]
  · rw [lib_highlight_bad hv3 (ht _) hbad]
  · rw [lib_update_bad hv3 (ht _) hbad]
  · rw [lib_delete_bad hv3 (ht _) hbad]

/-- C2 witness: all thirteen conclusions instantiated against a mock server
that answers every request with status 404. -/
theorem bad_status_errors_witness :
    (Client.books ⟨"token"⟩ (constT 404) 1).2 = .err (.badRequest 404) ∧
    (Client.highlights ⟨"token"⟩ (constT 404) 1).2 = .err (.badRequest 404) ∧
    (Client.book ⟨"token"⟩ (constT 404) 1).2 = .err (.badRequest 404) ∧
    (Client.highlight ⟨"token"⟩ (constT 404) 1).2 = .err (.badRequest 404) ∧
    (Client.create_highlights ⟨"token"⟩ (constT 404) []).2 = .err (.badRequest 404) ∧
    (Client.update_highlight ⟨"token"⟩ (constT 404) 1 []).2 = .err (.badRequest 404) ∧
    (Client.delete_highlight ⟨"token"⟩ (constT 404) 1).2 = .err (.badRequest 404) ∧
    (Client.new (constT 404) "token").2 = .err (.badRequest 404) ∧
    (auth (constT 404) "token").2 = .err (.badRequest 404) ∧
    (Lib.Client.book ⟨"token"⟩ (constT 404) 2).2 = .err (.fetchBookFailed 2) ∧
    (Lib.Client.highlight ⟨"token"⟩ (constT 404) 2).2 = .err (.fetchHighlightFailed 2) ∧
    (Lib.Client.update ⟨"token"⟩ (constT 404) 2 []).2 = .err (.updateFailed 2) ∧
    (Lib.Client.delete ⟨"token"⟩ (constT 404) 2).2 = .err (.deleteFailed 2) :=
  bad_status_errors ⟨"token"⟩ ⟨"token"⟩ (constT 404) ⟨404, .null⟩ "token" 1 2 1
    [] [] rfl rfl rfl (fun _ => rfl) (by decide)

/-- C3 counterexample: `update_highlight(1, {"text": "hi"})` dispatches a
single PATCH whose wire body is the serialized `fields` map alone, and that
body is NOT the `{"body": [fields]}` document the claim asserts: the wrapper
builds the `{"body": [fields]}` container, but the signer serializes only
element 0 of its `body` list. -/
theorem update_body_counterexample :
    (Client.update_highlight ⟨"token"⟩ (constT 200) 1 [("text", "hi")]).1 =
      [patchReq ⟨"token"⟩ 1 [("text", "hi")]] ∧
    (patchReq ⟨"token"⟩ 1 [("text", "hi")]).body =
      some (fieldMapToJson [("text", "hi")]) ∧
    some (fieldMapToJson [("text", "hi")]) ≠
      some (bodyMapToJson [("body", [[("text", "hi")]])]) := by
  refine ⟨rfl, rfl, ?_⟩
  intro h
  simp [fieldMapToJson, bodyMapToJson] at h

/-- C3 amended: `update_highlight(id, fields)` wraps `fields` as
`{"body": [fields]}` when calling the signer, but the PATCH request actually
sent to `/highlights/{id}` carries as its wire body the serialized `fields`
map itself (element 0 of the `body` list), and on a 2xx response the decoded
updated `Highlight` is returned. -/
theorem update_highlight_spec (c : Client) (t : Transport) (id : Int)
    (fields : FieldMap) (r : HttpResp) (h : Highlight)
    (hv : TokenOk c.access_token)
    (ht : t (patchReq c id fields) = .resp r) (hst : isSuccess r.status = true)
    (hdec : decodeHighlight r.body = some h) :
    c.update_highlight t id fields = ([patchReq c id fields], .ok h) ∧
    (patchReq c id fields).method = .PATCH ∧
    (patchReq c id fields).url =
      request_url ++ "/api/v2" ++ ("/highlights/" ++ toString id) ∧
    (patchReq c id fields).body = some (fieldMapToJson fields) :=
  ⟨update_ok hv ht hst hdec, rfl, rfl, rfl⟩

/-- C3 witness: updating highlight 7 against `updT` dispatches the single
PATCH with the bare fields body and returns the decoded updated record. -/
theorem update_highlight_spec_witness :
    Client.update_highlight ⟨"token"⟩ updT 7 [("text", "new")] =
      ([patchReq ⟨"token"⟩ 7 [("text", "new")]], .ok (hlVal 7 "updated")) ∧
    (patchReq ⟨"token"⟩ 7 [("text", "new")]).method = .PATCH ∧
    (patchReq ⟨"token"⟩ 7 [("text", "new")]).url =
      request_url ++ "/api/v2" ++ ("/highlights/" ++ toString (7 : Int)) ∧
    (patchReq ⟨"token"⟩ 7 [("text", "new")]).body =
      some (fieldMapToJson [("text", "new")]) :=
  update_highlight_spec ⟨"token"⟩ updT 7 [("text", "new")]
    ⟨200, hlJson 7 "updated"⟩ (hlVal 7 "updated") rfl rfl rfl rfl

/-- C4: authentication (`Client::new`, `auth::auth`, `lib::auth`) issues one
signed GET to `/auth`; a 2xx response yields a client whose stored token is
exactly the supplied one; any non-2xx response yields an error carrying the
HTTP status and no client. -/
theorem auth_spec (t : Transport) (tok : String) (r : HttpResp)
    (hv : TokenOk tok) (ht : t (authReq tok) = .resp r) :
    (isSuccess r.status = true →
      Client.new t tok = ([authReq tok], .ok ⟨tok⟩) ∧
      auth t tok = ([authReq tok], .ok ⟨tok⟩) ∧
      Lib.auth t tok = ([authReq tok], .ok ⟨tok⟩)) ∧
    (isSuccess r.status = false →
      Client.new t tok = ([authReq tok], .err (.badRequest r.status)) ∧
      auth t tok = ([authReq tok], .err (.badRequest r.status)) ∧
      Lib.auth t tok = ([authReq tok], .err (.authFailed r.status))) := by
  constructor
  · intro hst
    exact ⟨new_ok hv ht hst, auth_ok hv ht hst, lib_auth_ok hv ht hst⟩
  · intro hst
    exact ⟨new_bad hv ht hst, auth_bad hv ht hst, lib_auth_bad hv ht hst⟩

/-- C4 witness: a 204 mock yields clients carrying exactly the supplied
token; a 401 mock yields the status-carrying authentication failures. -/
theorem auth_spec_witness :
    Client.new (constT 204) "token" = ([authReq "token"], .ok ⟨"token"⟩) ∧
    auth (constT 204) "token" = ([authReq "token"], .ok ⟨"token"⟩) ∧
    Lib.auth (constT 204) "token" = ([authReq "token"], .ok ⟨"token"⟩) ∧
    Client.new (constT 401) "token" = ([authReq "token"], .err (.badRequest 401)) ∧
    Lib.auth (constT 401) "token" = ([authReq "token"], .err (.authFailed 401)) := by
  have h1 := (auth_spec (constT 204) "token" ⟨204, .null⟩ rfl rfl).1 (by decide)
  have h2 := (auth_spec (constT 401) "token" ⟨401, .null⟩ rfl rfl).2 (by decide)
  exact ⟨h1.1, h1.2.1, h1.2.2, h2.1, h2.2.2⟩

/-- C5: the request signers attach a body according to the method — POST
sends the supplied body map as-is (serialized); PATCH sends only element 0 of
the body map's `body` list; GET and DELETE send no body whatever body
argument is supplied — and `Client::request` is the signer applied to the
client's stored token. -/
theorem signer_body_attachment (t : Transport) (ep tok : String) (b : BodyMap)
    (f : FieldMap) (fs : List FieldMap) (ob : Option BodyMap) (c : Client)
    (m : Method) (bb : Option BodyMap) :
    (TokenOk tok →
      ((signed_request t ep tok .POST (some b)).1 =
          [mkReq ep ("Token " ++ tok) .POST (some (bodyMapToJson b))] ∧
       (lookup b "body" = some (f :: fs) →
         (signed_request t ep tok .PATCH (some b)).1 =
           [mkReq ep ("Token " ++ tok) .PATCH (some (fieldMapToJson f))]) ∧
       (signed_request t ep tok .GET ob).1 =
         [mkReq ep ("Token " ++ tok) .GET none] ∧
       (signed_request t ep tok .DELETE ob).1 =
         [mkReq ep ("Token " ++ tok) .DELETE none] ∧
       (Lib.signed_request t ep tok .POST (some b)).1 =
          [mkReq ep ("Token " ++ tok) .POST (some (bodyMapToJson b))] ∧
       (lookup b "body" = some (f :: fs) →
         (Lib.signed_request t ep tok .PATCH (some b)).1 =
           [mkReq ep ("Token " ++ tok) .PATCH (some (fieldMapToJson f))]) ∧
       (Lib.signed_request t ep tok .GET ob).1 =
         [mkReq ep ("Token " ++ tok) .GET none] ∧
       (Lib.signed_request t ep tok .DELETE ob).1 =
         [mkReq ep ("Token " ++ tok) .DELETE none])) ∧
    Client.request c t ep m bb = signed_request t ep c.access_token m bb := by
  constructor
  · intro hv
    refine ⟨?_, ?_, ?_, ?_, ?_, ?_, ?_, ?_⟩
    · rw [signed_request_POST _ _ _ hv, sendAndCheck_fst]
    · intro hb
      rw [signed_request_PATCH _ _ hv hb, sendAndCheck_fst]
    · rw [signed_request_GET _ _ _ hv, sendAndCheck_fst]
    · rw [signed_request_DELETE _ _ _ hv, sendAndCheck_fst]
    · rw [lib_signed_request_POST _ _ _ hv, sendRaw_fst]
    · intro hb
      rw [lib_signed_request_PATCH _ _ hv hb, sendRaw_fst]
    · rw [lib_signed_request_GET _ _ _ hv, sendRaw_fst]
    · rw [lib_signed_request_DELETE _ _ _ hv, sendRaw_fst]
  · rfl

/-- C5 witness: the POST body map is serialized as-is, the PATCH wire body is
element 0 of the `body` list, and GET carries no body, at concrete inputs. -/
theorem signer_body_attachment_witness :
    (signed_request downT "/highlights" "token" .POST
        (some [("highlights", [[("text", "x")]])])).1 =
      [mkReq "/highlights" "Token token" .POST
        (some (bodyMapToJson [("highlights", [[("text", "x")]])]))] ∧
    (signed_request downT "/highlights/1" "token" .PATCH
        (some [("body", [[("text", "x")]])])).1 =
      [mkReq "/highlights/1" "Token token" .PATCH
        (some (fieldMapToJson [("text", "x")]))] ∧
    (signed_request downT "/auth" "token" .GET none).1 =
      [mkReq "/auth" "Token token" .GET none] ∧
    lookup ([("body", [[("text", "x")]])] : BodyMap) "body" =
      some ([("text", "x")] :: []) := by
  have h := (signer_body_attachment downT "/highlights" "token"
    [("highlights", [[("text", "x")]])] [("text", "x")] [] none ⟨"token"⟩
    .GET none).1 rfl
  have h2 := (signer_body_attachment downT "/highlights/1" "token"
    [("body", [[("text", "x")]])] [("text", "x")] [] none ⟨"token"⟩
    .GET none).1 rfl
  have h3 := (signer_body_attachment downT "/auth" "token"
    [("body", [[("text", "x")]])] [("text", "x")] [] none ⟨"token"⟩
    .GET none).1 rfl
  exact ⟨h.1, h2.2.1 (by simp [lookup]), h3.2.2.1, by simp [lookup]⟩

/-- C6: when the page listing's single GET succeeds and its body decodes to a
paginated envelope, `books(page)` and `highlights(page)` (in both revisions)
return exactly the envelope's `results` list — every element, in the
server-supplied order, unchanged — and the log shows exactly one request, so
the `next`/`previous` cursors are never followed. -/
theorem list_results_spec (c : Client) (lc : Lib.Client) (t : Transport)
    (page : Nat) (lpage : Int) :
    (∀ (r : HttpResp) (env : BooksResponse), TokenOk c.access_token →
      t (booksReq c page) = .resp r → isSuccess r.status = true →
      decodeBooksResponse r.body = some env →
      c.books t page = ([booksReq c page], .ok env.results)) ∧
    (∀ (r : HttpResp) (env : HighlightsResponse), TokenOk c.access_token →
      t (highlightsReq c page) = .resp r → isSuccess r.status = true →
      decodeHighlightsResponse r.body = some env →
      c.highlights t page = ([highlightsReq c page], .ok env.results)) ∧
    (∀ (r : HttpResp) (env : BooksResponse), TokenOk lc.access_token →
      t (Lib.booksReq lc lpage) = .resp r → isSuccess r.status = true →
      decodeBooksResponse r.body = some env →
      lc.books t lpage = ([Lib.booksReq lc lpage], .ok env.results)) ∧
    (∀ (r : HttpResp) (env : HighlightsResponse), TokenOk lc.access_token →
      t (Lib.highlightsReq lc lpage) = .resp r → isSuccess r.status = true →
      decodeHighlightsResponse r.body = some env →
      lc.highlights t lpage = ([Lib.highlightsReq lc lpage], .ok env.results)) := by
  refine ⟨?_, ?_, ?_, ?_⟩
  · intro r env hv ht hst hdec
    exact books_ok hv ht hst hdec
  · intro r env hv ht hst hdec
    exact highlights_ok hv ht hst hdec
  · intro r env hv ht hst hdec
    exact lib_books_ok hv ht hst hdec
  · intro r env hv ht hst hdec
    exact lib_highlights_ok hv ht hst hdec

/-- C6 witness: against `envT`, whose envelopes carry two results and a
non-null `next` cursor, page-1 listings return exactly the two records in
server order after a single request each. -/
theorem list_results_spec_witness :
    Client.books ⟨"token"⟩ envT 1 =
      ([booksReq ⟨"token"⟩ 1], .ok [bookVal 1 "b1", bookVal 2 "b2"]) ∧
    Client.highlights ⟨"token"⟩ envT 1 =
      ([highlightsReq ⟨"token"⟩ 1], .ok [hlVal 1 "h1", hlVal 2 "h2"]) ∧
    Lib.Client.books ⟨"token"⟩ envT 1 =
      ([Lib.booksReq ⟨"token"⟩ 1], .ok [bookVal 1 "b1", bookVal 2 "b2"]) ∧
    Lib.Client.highlights ⟨"token"⟩ envT 1 =
      ([Lib.highlightsReq ⟨"token"⟩ 1], .ok [hlVal 1 "h1", hlVal 2 "h2"]) := by
  have h := list_results_spec ⟨"token"⟩ ⟨"token"⟩ envT 1 1
  exact ⟨h.1 ⟨200, envJson [bookJson 1 "b1", bookJson 2 "b2"]⟩
      ⟨1, some "https://readwise.io/api/v2/next", none, [bookVal 1 "b1", bookVal 2 "b2"]⟩
      rfl rfl rfl rfl,
    h.2.1 ⟨200, envJson [hlJson 1 "h1", hlJson 2 "h2"]⟩
      ⟨1, some "https://readwise.io/api/v2/next", none, [hlVal 1 "h1", hlVal 2 "h2"]⟩
      rfl rfl rfl rfl,
    h.2.2.1 ⟨200, envJson [bookJson 1 "b1", bookJson 2 "b2"]⟩
      ⟨1, some "https://readwise.io/api/v2/next", none, [bookVal 1 "b1", bookVal 2 "b2"]⟩
      rfl rfl rfl rfl,
    h.2.2.2 ⟨200, envJson [hlJson 1 "h1", hlJson 2 "h2"]⟩
      ⟨1, some "https://readwise.io/api/v2/next", none, [hlVal 1 "h1", hlVal 2 "h2"]⟩
      rfl rfl rfl rfl⟩

/-- C7: every request either signer dispatches goes to the absolute URL
`<base>/api/v2<path>` for its endpoint path and carries exactly the header
`Authorization: Token <token>`; consequently every request dispatched by any
client operation (authentication included) has that URL shape for its
operation's path and carries that header. -/
theorem url_and_auth_header (t : Transport) (ep tok : String) (m : Method)
    (b : Option BodyMap) (c : Client) (page : Nat) (id : Int)
    (fields : FieldMap) (hs : List FieldMap) :
    (∀ req ∈ (signed_request t ep tok m b).1,
      req.url = request_url ++ "/api/v2" ++ ep ∧
      req.headers = [("Authorization", "Token " ++ tok)]) ∧
    (∀ req ∈ (Lib.signed_request t ep tok m b).1,
      req.url = request_url ++ "/api/v2" ++ ep ∧
      req.headers = [("Authorization", "Token " ++ tok)]) ∧
    (∀ req ∈ (Client.new t tok).1,
      req.url = request_url ++ "/api/v2" ++ "/auth" ∧
      req.headers = [("Authorization", "Token " ++ tok)]) ∧
    (∀ req ∈ (auth t tok).1,
      req.url = request_url ++ "/api/v2" ++ "/auth" ∧
      req.headers = [("Authorization", "Token " ++ tok)]) ∧
    (∀ req ∈ (Lib.auth t tok).1,
      req.url = request_url ++ "/api/v2" ++ "/auth" ∧
      req.headers = [("Authorization", "Token " ++ tok)]) ∧
    (∀ req ∈ (c.books t page).1,
      req.url = request_url ++ "/api/v2" ++ ("/books?page=" ++ toString page) ∧
      req.headers = [("Authorization", "Token " ++ c.access_token)]) ∧
    (∀ req ∈ (c.highlights t page).1,
      req.url = request_url ++ "/api/v2" ++ ("/highlights?page=" ++ toString page) ∧
      req.headers = [("Authorization", "Token " ++ c.access_token)]) ∧
    (∀ req ∈ (c.book t id).1,
      req.url = request_url ++ "/api/v2" ++ ("/books/" ++ toString id) ∧
      req.headers = [("Authorization", "Token " ++ c.access_token)]) ∧
    (∀ req ∈ (c.highlight t id).1,
      req.url = request_url ++ "/api/v2" ++ ("/highlights/" ++ toString id) ∧
      req.headers = [("Authorization", "Token " ++ c.access_token)]) ∧
    (∀ req ∈ (c.update_highlight t id fields).1,
      req.url = request_url ++ "/api/v2" ++ ("/highlights/" ++ toString id) ∧
      req.headers = [("Authorization", "Token " ++ c.access_token)]) ∧
    (∀ req ∈ (c.delete_highlight t id).1,
      req.url = request_url ++ "/api/v2" ++ ("/highlights/" ++ toString id) ∧
      req.headers = [("Authorization", "Token " ++ c.access_token)]) ∧
    (∀ req ∈ (c.create_highlights t hs).1,
      req.headers = [("Authorization", "Token " ++ c.access_token)] ∧
      ∃ p, req.url = request_url ++ "/api/v2" ++ p) := by
  refine ⟨?_, ?_, ?_, ?_, ?_, ?_, ?_, ?_, ?_, ?_, ?_, ?_⟩
  · intro req hreq
    obtain ⟨h1, h2, -, -⟩ := signed_request_mem req hreq
    exact ⟨h1, h2⟩
  · intro req hreq
    obtain ⟨h1, h2, -, -⟩ := lib_signed_request_mem req hreq
    exact ⟨h1, h2⟩
  · intro req hreq
    rw [new_log] at hreq
    obtain ⟨h1, h2, -, -⟩ := signed_request_mem req hreq
    exact ⟨h1, h2⟩
  · intro req hreq
    rw [auth_log] at hreq
    obtain ⟨h1, h2, -, -⟩ := signed_request_mem req hreq
    exact ⟨h1, h2⟩
  · intro req hreq
    rw [lib_auth_log] at hreq
    obtain ⟨h1, h2, -, -⟩ := lib_signed_request_mem req hreq
    exact ⟨h1, h2⟩
  · intro req hreq
    rw [books_log] at hreq
    obtain ⟨h1, h2, -, -⟩ := signed_request_mem req hreq
    exact ⟨h1, h2⟩
  · intro req hreq
    rw [highlights_log] at hreq
    obtain ⟨h1, h2, -, -⟩ := signed_request_mem req hreq
    exact ⟨h1, h2⟩
  · intro req hreq
    rw [book_log] at hreq
    obtain ⟨h1, h2, -, -⟩ := signed_request_mem req hreq
    exact ⟨h1, h2⟩
  · intro req hreq
    obtain ⟨h1, h2, -⟩ := highlight_log_mem req hreq
    exact ⟨h1, h2⟩
  · intro req hreq
    rw [update_log] at hreq
    obtain ⟨h1, h2, -, -⟩ := signed_request_mem req hreq
    exact ⟨h1, h2⟩
  · intro req hreq
    rw [delete_log] at hreq
    obtain ⟨h1, h2, -, -⟩ := signed_request_mem req hreq
    exact ⟨h1, h2⟩
  · intro req hreq
    exact create_log_mem req hreq

/-- C7 witness: the request dispatched by a page-1 book listing (a member of
its request log) has URL `<base>/api/v2/books?page=1` and exactly the
`Authorization: Token token` header. -/
theorem url_and_auth_header_witness :
    (booksReq ⟨"token"⟩ 1).url =
      request_url ++ "/api/v2" ++ ("/books?page=" ++ toString (1 : Nat)) ∧
    (booksReq ⟨"token"⟩ 1).headers = [("Authorization", "Token token")] :=
  (url_and_auth_header (constT 200) "/auth" "token" .GET none ⟨"token"⟩ 1 1
    [] []).2.2.2.2.2.1 (booksReq ⟨"token"⟩ 1)
    (List.mem_singleton_self (booksReq ⟨"token"⟩ 1))

/-- C8: a client is an immutable value: construction (in all three
authentication paths) stores exactly the supplied token, operations are pure
functions of that value, and every request any operation dispatches is signed
with exactly the construction-time token's `Authorization` header. -/
theorem client_immutable (t : Transport) (tok : String) (c : Client)
    (lc : Lib.Client) (page : Nat) (id : Int) (fields : FieldMap)
    (hs : List FieldMap) :
    (∀ (log : List HttpRequest) (cl : Client),
      Client.new t tok = (log, .ok cl) → cl.access_token = tok) ∧
    (∀ (log : List HttpRequest) (cl : Client),
      auth t tok = (log, .ok cl) → cl.access_token = tok) ∧
    (∀ (log : List HttpRequest) (cl : Lib.Client),
      Lib.auth t tok = (log, .ok cl) → cl.access_token = tok) ∧
    (∀ req ∈ (c.books t page).1,
      req.headers = [("Authorization", "Token " ++ c.access_token)]) ∧
    (∀ req ∈ (c.highlights t page).1,
      req.headers = [("Authorization", "Token " ++ c.access_token)]) ∧
    (∀ req ∈ (c.book t id).1,
      req.headers = [("Authorization", "Token " ++ c.access_token)]) ∧
    (∀ req ∈ (c.highlight t id).1,
      req.headers = [("Authorization", "Token " ++ c.access_token)]) ∧
    (∀ req ∈ (c.create_highlights t hs).1,
      req.headers = [("Authorization", "Token " ++ c.access_token)]) ∧
    (∀ req ∈ (c.update_highlight t id fields).1,
      req.headers = [("Authorization", "Token " ++ c.access_token)]) ∧
    (∀ req ∈ (c.delete_highlight t id).1,
      req.headers = [("Authorization", "Token " ++ c.access_token)]) ∧
    (∀ req ∈ (lc.books t id).1,
      req.headers = [("Authorization", "Token " ++ lc.access_token)]) ∧
    (∀ req ∈ (lc.create t hs).1,
      req.headers = [("Authorization", "Token " ++ lc.access_token)]) := by
  refine ⟨?_, ?_, ?_, ?_, ?_, ?_, ?_, ?_, ?_, ?_, ?_, ?_⟩
  · intro log cl h
    unfold Client.new at h
    rcases hm : signed_request t "/auth" tok .GET none with ⟨lg, out⟩
    rw [hm] at h
    cases out with
    | ok r =>
      obtain ⟨-, h2⟩ := Prod.mk.injEq .. ▸ h
      cases h2
      rfl
    | err e => simp at h
    | panic m => simp at h
  · intro log cl h
    unfold auth at h
    rcases hm : signed_request t "/auth" tok .GET none with ⟨lg, out⟩
    rw [hm] at h
    cases out with
    | ok r =>
      obtain ⟨-, h2⟩ := Prod.mk.injEq .. ▸ h
      cases h2
      rfl
    | err e => simp at h
    | panic m => simp at h
  · intro log cl h
    unfold Lib.auth at h
    rcases hm : Lib.signed_request t "/auth" tok .GET none with ⟨lg, out⟩
    rw [hm] at h
    cases out with
    | ok r =>
      by_cases hs2 : isSuccess r.status <;> simp [hs2] at h
      exact h.2 ▸ rfl
    | err e => simp at h
    | panic m => simp at h
  · intro req hreq
    rw [books_log] at hreq
    exact (signed_request_mem req hreq).2.1
  · intro req hreq
    rw [highlights_log] at hreq
    exact (signed_request_mem req hreq).2.1
  · intro req hreq
    rw [book_log] at hreq
    exact (signed_request_mem req hreq).2.1
  · intro req hreq
    exact (highlight_log_mem req hreq).2.1
  · intro req hreq
    exact (create_log_mem req hreq).1
  · intro req hreq
    rw [update_log] at hreq
    exact (signed_request_mem req hreq).2.1
  · intro req hreq
    rw [delete_log] at hreq
    exact (signed_request_mem req hreq).2.1
  · intro req hreq
    rw [lib_books_log] at hreq
    exact (lib_signed_request_mem req hreq).2.1
  · intro req hreq
    exact lib_create_log_mem req hreq

/-- C8 witness: authenticating with `"token"` against a 204 mock yields a
client storing exactly `"token"`, and a request of a listing operation (a
member of its log) is signed with exactly that stored token. -/
theorem client_immutable_witness :
    Client.access_token ⟨"token"⟩ = "token" ∧
    (booksReq ⟨"token"⟩ 1).headers = [("Authorization", "Token token")] := by
  have h := client_immutable (constT 204) "token" ⟨"token"⟩ ⟨"token"⟩ 1 1 [] []
  exact ⟨h.1 [authReq "token"] ⟨"token"⟩ rfl,
    h.2.2.2.1 (booksReq ⟨"token"⟩ 1) (List.mem_singleton_self _)⟩

/-- C9: every request either signer actually dispatches carries one of the
four methods GET, POST, PATCH, DELETE, and no public operation of either
revision ever surfaces the unsupported-method failure: the modular
operations never return `Error::UnsupportedRequest`, and the legacy
operations never reach the `panic!("Unsupported request method")` arm. -/
theorem no_unsupported_method (c : Client) (lc : Lib.Client) (t : Transport)
    (tok ep : String) (m : Method) (b : Option BodyMap) (page : Nat)
    (lpage id : Int) (fields : FieldMap) (hs : List FieldMap) :
    (∀ req ∈ (signed_request t ep tok m b).1,
      req.method = .GET ∨ req.method = .POST ∨
      req.method = .PATCH ∨ req.method = .DELETE) ∧
    (∀ req ∈ (Lib.signed_request t ep tok m b).1,
      req.method = .GET ∨ req.method = .POST ∨
      req.method = .PATCH ∨ req.method = .DELETE) ∧
    (c.books t page).2.isUnsupportedErr = false ∧
    (c.highlights t page).2.isUnsupportedErr = false ∧
    (c.book t id).2.isUnsupportedErr = false ∧
    (c.highlight t id).2.isUnsupportedErr = false ∧
    (c.create_highlights t hs).2.isUnsupportedErr = false ∧
    (c.update_highlight t id fields).2.isUnsupportedErr = false ∧
    (c.delete_highlight t id).2.isUnsupportedErr = false ∧
    (Client.new t tok).2.isUnsupportedErr = false ∧
    (auth t tok).2.isUnsupportedErr = false ∧
    (lc.books t lpage).2.isUnsupPanic = false ∧
    (lc.highlights t lpage).2.isUnsupPanic = false ∧
    (lc.book t id).2.isUnsupPanic = false ∧
    (lc.highlight t id).2.isUnsupPanic = false ∧
    (lc.create t hs).2.isUnsupPanic = false ∧
    (lc.update t id fields).2.isUnsupPanic = false ∧
    (lc.delete t id).2.isUnsupPanic = false ∧
    (Lib.auth t tok).2.isUnsupPanic = false := by
  refine ⟨?_, ?_, books_no_unsup c t page, highlights_no_unsup c t page,
    book_no_unsup c t id, highlight_no_unsup c t id, create_no_unsup c t hs,
    update_no_unsup c t id fields, delete_no_unsup c t id,
    new_no_unsup t tok, auth_no_unsup t tok,
    lib_books_no_unsup_panic lc t lpage, lib_highlights_no_unsup_panic lc t lpage,
    lib_book_no_unsup_panic lc t id, lib_highlight_no_unsup_panic lc t id,
    lib_create_no_unsup_panic lc t hs, lib_update_no_unsup_panic lc t id fields,
    lib_delete_no_unsup_panic lc t id, lib_auth_no_unsup_panic t tok⟩
  · intro req hreq
    obtain ⟨-, -, h3, h4⟩ := signed_request_mem req hreq
    exact h3 ▸ h4
  · intro req hreq
    obtain ⟨-, -, h3, h4⟩ := lib_signed_request_mem req hreq
    exact h3 ▸ h4

/-- C9 witness: the dispatched authentication request's method is among the
four, and concrete operations of both revisions produce no unsupported-method
failure. -/
theorem no_unsupported_method_witness :
    ((authReq "token").method = .GET ∨ (authReq "token").method = .POST ∨
      (authReq "token").method = .PATCH ∨ (authReq "token").method = .DELETE) ∧
    (Client.books ⟨"token"⟩ (constT 200) 1).2.isUnsupportedErr = false ∧
    (Lib.Client.create ⟨"token"⟩ (constT 200) []).2.isUnsupPanic = false := by
  have h := no_unsupported_method ⟨"token"⟩ ⟨"token"⟩ (constT 200) "token"
    "/auth" .GET none 1 1 1 [] []
  exact ⟨h.1 (authReq "token") (List.mem_singleton_self _), h.2.2.1,
    h.2.2.2.2.2.2.2.2.2.2.2.2.2.2.2.1⟩

/-- C10: the exported `signed_request` is not total: POST or PATCH with no
body, PATCH with a body map lacking the `body` key, and PATCH with an empty
`body` list all panic (unwrap/indexing) instead of returning an error value;
it is panic-free when POST receives some body and PATCH receives some body
whose `body` entry is a non-empty list (GET and DELETE never panic for any
body argument), and every public client operation satisfies that
precondition — none of them can panic. -/
theorem signed_request_partiality (t : Transport) (ep tok : String)
    (b : BodyMap) (f : FieldMap) (fs : List FieldMap) (ob : Option BodyMap)
    (c : Client) (page : Nat) (id : Int) (fields : FieldMap)
    (hs : List FieldMap) :
    (signed_request t "/highlights" "token" .POST none).2.isPanic = true ∧
    (signed_request t "/highlights/1" "token" .PATCH none).2.isPanic = true ∧
    (signed_request t "/highlights/1" "token" .PATCH
      (some [("highlights", [])])).2.isPanic = true ∧
    (signed_request t "/highlights/1" "token" .PATCH
      (some [("body", [])])).2.isPanic = true ∧
    (signed_request t ep tok .POST (some b)).2.isPanic = false ∧
    (lookup b "body" = some (f :: fs) →
      (signed_request t ep tok .PATCH (some b)).2.isPanic = false) ∧
    (signed_request t ep tok .GET ob).2.isPanic = false ∧
    (signed_request t ep tok .DELETE ob).2.isPanic = false ∧
    (c.books t page).2.isPanic = false ∧
    (c.highlights t page).2.isPanic = false ∧
    (c.book t id).2.isPanic = false ∧
    (c.highlight t id).2.isPanic = false ∧
    (c.create_highlights t hs).2.isPanic = false ∧
    (c.update_highlight t id fields).2.isPanic = false ∧
    (c.delete_highlight t id).2.isPanic = false ∧
    (Client.new t tok).2.isPanic = false ∧
    (auth t tok).2.isPanic = false := by
  refine ⟨rfl, rfl, rfl, rfl, signed_request_POST_no_panic t ep tok b, ?_,
    signed_request_GET_no_panic t ep tok ob,
    signed_request_DELETE_no_panic t ep tok ob,
    books_no_panic c t page, highlights_no_panic c t page,
    book_no_panic c t id, highlight_no_panic c t id,
    create_no_panic c t hs, update_no_panic c t id fields,
    delete_no_panic c t id, new_no_panic t tok, auth_no_panic t tok⟩
  intro hb
  exact signed_request_PATCH_no_panic t ep tok hb

/-- C10 witness: the PATCH precondition holds at a concrete well-formed body
and rules out the panic there, while POST with no body panics. -/
theorem signed_request_partiality_witness :
    lookup ([("body", [[("text", "x")]])] : BodyMap) "body" =
      some ([("text", "x")] :: []) ∧
    (signed_request downT "/h" "token" .PATCH
      (some [("body", [[("text", "x")]])])).2.isPanic = false ∧
    (signed_request downT "/h" "token" .POST none).2.isPanic = true := by
  have h := signed_request_partiality downT "/h" "token"
    [("body", [[("text", "x")]])] [("text", "x")] [] none ⟨"token"⟩ 1 1 [] []
  exact ⟨by simp [lookup], h.2.2.2.2.2.1 (by simp [lookup]), h.1⟩

end Readwise
